import Mathlib

/-!
Verification of the QHYCCD SDK demo programs (qhyccd-rs repository,
`src/libqhyccd-sys/sdk_Arm64_24.12.26/usr/local/testapp/cmake_demo/`).

The four C++ programs (`test_base`, `base_test`, `test_live_opencv`,
`test_single_opencv`) are straight-line drivers of the opaque vendor SDK.
We embed each `main` as a function from an environment (the results the SDK
returns at each call site) to a `Run`: the list of observable events the
program performs, in order, together with its exit code (`none` meaning the
program did not terminate within the observation fuel, in particular for
the unconditional `while(true)` loop of `test_live_opencv`).

Events record every SDK call together with the return value the environment
supplied for it, buffer allocations with their size, reads of the frame
buffer (`cv::Mat` wrapping of `ImgData` for display), console output
(printf format strings; sprintf into a local buffer that is then printed is
modelled by the event carrying its formatted numbers where a claim depends
on them), stdin reads, and the fixed sleeps / `cv::waitKey` pacing calls.
`cv::namedWindow` and `cv::imshow` themselves perform no SDK or buffer
action beyond the already-recorded buffer read, and are not modelled.
-/

/-- Constant `QHYCCD_SUCCESS` from the vendor SDK header `qhyccd.h` (value 0):
the single success sentinel every checked call is compared against. -/
def QHYCCD_SUCCESS : Int := 0

/-- Constant `QHYCCD_ERROR` from the vendor SDK header `qhyccd.h` (value 0xFFFFFFFF),
used by `base_test` in the `IsQHYCCDControlAvailable` comparison. -/
def QHYCCD_ERROR : Int := 4294967295

/-- The SDK entry points the four demo programs call. -/
inductive SDKCall where
  | getSDKVersion
  | initResource
  | enableMessage
  | scan
  | getId
  | openCam
  | getFWVersion
  | setReadMode
  | setStreamMode
  | initCamera
  | setBitsMode
  | getChipInfo
  | setResolution
  | getMemLength
  | isControlAvailable
  | setParam
  | getParam
  | beginLive
  | getLiveFrame
  | expSingleFrame
  | getSingleFrame
  | stopLive
  | close
  | releaseResource
deriving DecidableEq, Repr

/-- Whether an SDK entry point takes the open device handle as an argument
(per the call sites in the demo programs: `OpenQHYCCD` takes the id string
and returns the handle; `ScanQHYCCD`, `GetQHYCCDId`, `InitQHYCCDResource`,
`ReleaseQHYCCDResource`, `GetQHYCCDSDKVersion`, `EnableQHYCCDMessage`
do not take the handle). -/
def usesHandle : SDKCall → Bool
  | .getFWVersion | .setReadMode | .setStreamMode | .initCamera
  | .setBitsMode | .getChipInfo | .setResolution | .getMemLength
  | .isControlAvailable | .setParam | .getParam | .beginLive
  | .getLiveFrame | .expSingleFrame | .getSingleFrame | .stopLive
  | .close => true
  | _ => false

/-- Observable events of a demo-program run. `call c r` is an SDK call with
the return value `r` the environment supplied (for `OpenQHYCCD`, `r` encodes
whether the returned handle is non-null); `alloc n` is the single
`malloc(length)` of the frame buffer; `readBuffer` is a read of the frame
buffer contents (wrapping `ImgData` in a `cv::Mat` for display);
`print` is console output identified by its format string; `fwPrint` is the
firmware-version output carrying the three decoded numbers; `coutNum` is
`std::cout` of a queried parameter value; `readInput` is a character read
from stdin; `sleep`/`waitKey` are the fixed pacing delays. -/
inductive Event where
  | call (c : SDKCall) (ret : Int)
  | alloc (size : Int)
  | readBuffer
  | print (msg : String)
  | fwPrint (major minor patch : Nat)
  | coutNum (v : Int)
  | readInput (c : Char)
  | sleep (usec : Nat)
  | waitKey (ms : Nat)
deriving DecidableEq, Repr

/-- A run of one program: the events it performed in order and its exit
code; `none` means the run did not terminate within the observation fuel. -/
structure Run where
  trace : List Event
  exitCode : Option Int
deriving DecidableEq, Repr

/-! Section: Firmware-version decoding

`test_base` (`main.cpp` lines 40-43) stores the decoded triple into
`uint8_t fwv_version[3]` (hence the `% 256` truncation of the stored byte):
`fwv_version[0] = (fwv[0] >> 4) <= 9 ? (fwv[0] >> 4) + 0x10 : (fwv[0] >> 4)`,
`fwv_version[1] = fwv[0] & ~0xf0`, `fwv_version[2] = fwv[1]`, then prints
them with `%d`. For `fwv[0] < 256` the int expression `fwv[0] & ~0xf0`
equals `fwv[0] &&& 0x0f`. -/

/-- In `test_base`: `fwv_version[0]`, the stored major byte. -/
def fwv_version0 (b0 : Nat) : Nat :=
  (if b0 >>> 4 ≤ 9 then (b0 >>> 4) + 0x10 else b0 >>> 4) % 256

/-- In `test_base`: `fwv_version[1] = fwv[0] & ~0xf0`, the stored minor byte. -/
def fwv_version1 (b0 : Nat) : Nat := (b0 &&& 0x0f) % 256

/-- In `test_base`: `fwv_version[2] = fwv[1]`, the stored patch byte. -/
def fwv_version2 (b1 : Nat) : Nat := b1 % 256

/-- In `base_test`, `FirmWareVersion` (`main.cpp` lines 103-129): the triple of
ints formatted by the two `sprintf` branches,
`((fwv[0] >> 4) + 0x10, fwv[0] & ~0xf0, fwv[1])` when `(fwv[0] >> 4) <= 9`
and `(fwv[0] >> 4, fwv[0] & ~0xf0, fwv[1])` otherwise. -/
def firmWareTriple (b0 b1 : Nat) : Nat × Nat × Nat :=
  if b0 >>> 4 ≤ 9 then ((b0 >>> 4) + 0x10, b0 &&& 0x0f, b1)
  else (b0 >>> 4, b0 &&& 0x0f, b1)

/-- The firmware triple as the claim states it: major is
`(fwv[0] >> 4) + 16` when `(fwv[0] >> 4) <= 9` and `fwv[0] >> 4` otherwise,
minor is `fwv[0] & 0x0F`, patch is `fwv[1]`. Stated from the claim text,
to be compared with the two program-side decodings. -/
def specFirmwareTriple (b0 b1 : Nat) : Nat × Nat × Nat :=
  (if b0 >>> 4 ≤ 9 then b0 >>> 4 + 16 else b0 >>> 4, b0 &&& 0x0f, b1)

/-! Section: `test_base/main.cpp` -/

/-- Environment for `test_base`: the value the SDK returns at each call
site of `main` (`test_base/main.cpp`). `scanNum` is the camera count from
`ScanQHYCCD`; `openOk` is whether `OpenQHYCCD` returns a non-null handle;
`fwv0`, `fwv1` are the first two firmware bytes written by
`GetQHYCCDFWVersion`; `memLength` is the result of `GetQHYCCDMemLength`. -/
structure TestBaseEnv where
  sdkVerRet : Int
  initResourceRet : Int
  enableMsgRet : Int
  scanNum : Int
  getIdRet : Int
  openOk : Bool
  fwRet : Int
  fwv0 : Nat
  fwv1 : Nat
  readModeRet : Int
  streamModeRet : Int
  initCamRet : Int
  bitsModeRet : Int
  chipInfoRet : Int
  resolutionRet : Int
  memLength : Int
  closeRet : Int
  releaseRet : Int
deriving Repr

/-- Shallow embedding of `main` of `test_base/main.cpp` (lines 5-76):
SDK version print, `InitQHYCCDResource`, `EnableQHYCCDMessage(true)`,
`ScanQHYCCD` with `num == 0` early `return 1`, `GetQHYCCDId(0,id)`,
`OpenQHYCCD`, firmware read and decode into `fwv_version` printed with
`printf("firmware version: %d_%d_%d\n", ...)`, read/stream mode, `InitQHYCCD`,
bits mode, chip info and its prints, `SetQHYCCDResolution` with the only
return-code check (failure prints and `return 1`), `GetQHYCCDMemLength`,
unconditional `malloc(length)`, `CloseQHYCCD`, `ReleaseQHYCCDResource`,
`return 0`. -/
def test_base_main (e : TestBaseEnv) : Run :=
  let pre : List Event :=
    [Event.call .getSDKVersion e.sdkVerRet,
     Event.print "SDK Version: %d.%d.%d_%d\n",
     Event.call .initResource e.initResourceRet,
     Event.call .enableMessage e.enableMsgRet,
     Event.call .scan e.scanNum,
     Event.print "Found %d cameras  \n"]
  if e.scanNum = 0 then
    { trace := pre ++ [Event.print "No camera found\n"], exitCode := some 1 }
  else
    let pre2 : List Event := pre ++
      [Event.call .getId e.getIdRet,
       Event.print "connected to the first camera from the list,id is %s\n",
       Event.call .openCam (if e.openOk then 1 else 0),
       Event.call .getFWVersion e.fwRet,
       Event.fwPrint (fwv_version0 e.fwv0) (fwv_version1 e.fwv0) (fwv_version2 e.fwv1),
       Event.call .setReadMode e.readModeRet,
       Event.call .setStreamMode e.streamModeRet,
       Event.call .initCamera e.initCamRet,
       Event.call .setBitsMode e.bitsModeRet,
       Event.call .getChipInfo e.chipInfoRet,
       Event.print "CCD/CMOS chip information:\n",
       Event.print "Chip width %3f mm,Chip height %3f mm\n",
       Event.print "Chip pixel width %3f um,Chip pixel height %3f um\n",
       Event.print "Chip Max Resolution is %d x %d,depth is %d\n",
       Event.call .setResolution e.resolutionRet]
    if e.resolutionRet = QHYCCD_SUCCESS then
      { trace := pre2 ++
          [Event.print "SetQHYCCDResolution success!\n",
           Event.call .getMemLength e.memLength,
           Event.alloc e.memLength,
           Event.call .close e.closeRet,
           Event.call .releaseResource e.releaseRet],
        exitCode := some 0 }
    else
      { trace := pre2 ++ [Event.print "SetQHYCCDResolution fail\n"],
        exitCode := some 1 }

/-! Section: `test_live_opencv/main.cpp` -/

/-- Environment for `test_live_opencv`: SDK results per call site; the
acquisition loop consumes `liveFrameRet i` as the result of
`GetQHYCCDLiveFrame` in iteration `i`, and `fpsTick i` tells whether the
`time(NULL)` difference reached 5 seconds in iteration `i` (which only
selects the fps diagnostic print). -/
structure LiveEnv where
  initResourceRet : Int
  enableMsgRet : Int
  scanNum : Int
  getIdRet : Int
  openOk : Bool
  readModeRet : Int
  streamModeRet : Int
  initCamRet : Int
  bitsModeRet : Int
  chipInfoRet : Int
  resolutionRet : Int
  memLength : Int
  setExposureRet : Int
  beginLiveRet : Int
  liveFrameRet : Nat → Int
  fpsTick : Nat → Bool

/-- One pass of the `while(true)` acquisition loop of `test_live_opencv`
(`main.cpp` lines 87-104), starting at iteration `i` with `fuel` passes
still observed: `GetQHYCCDLiveFrame`; on success the frame counter print,
the `cv::Mat` wrap of `ImgData` (the buffer read; it is then shown with
`cv::imshow`), `cv::waitKey(30)`, the fps report when the 5-second window
elapsed, `cv::waitKey(100)`; then `cv::waitKey(10)` and the next pass.
The loop body contains no `break` or `return`. -/
def liveLoop (frameRet : Nat → Int) (tick : Nat → Bool) : Nat → Nat → List Event
  | _, 0 => []
  | i, fuel+1 =>
    Event.call .getLiveFrame (frameRet i) ::
    ((if frameRet i = QHYCCD_SUCCESS then
        [Event.print "iCnt = %d\n", Event.readBuffer, Event.waitKey 30] ++
        (if tick i then [Event.print "|QHYCCD|LIVE_DEMO|fps = %d\n"] else []) ++
        [Event.waitKey 100]
      else []) ++
     (Event.waitKey 10 :: liveLoop frameRet tick (i+1) fuel))

/-- Shallow embedding of `main` of `test_live_opencv/main.cpp` (lines
8-111): init, message enable, scan with `num == 0` early `return 1`, get id,
open, read/stream mode (`LIVE_MODE`), `InitQHYCCD`, bits mode, chip info and
prints, `SetQHYCCDResolution` with the only return-code check (failure
prints and `return 1`), `GetQHYCCDMemLength` and the unconditional
`malloc(length)`, exposure parameter, `BeginQHYCCDLive`, then the
`while(true)` loop; the `StopQHYCCDLive` / `CloseQHYCCD` /
`ReleaseQHYCCDResource` statements after the loop (lines 106-108) are not
reachable, so a run that enters the loop never terminates
(`exitCode = none`, for every observation fuel). -/
def test_live_opencv_main (e : LiveEnv) (fuel : Nat) : Run :=
  let pre : List Event :=
    [Event.call .initResource e.initResourceRet,
     Event.call .enableMessage e.enableMsgRet,
     Event.call .scan e.scanNum,
     Event.print "Found %d cameras  \n"]
  if e.scanNum = 0 then
    { trace := pre ++ [Event.print "No camera found\n"], exitCode := some 1 }
  else
    let pre2 : List Event := pre ++
      [Event.call .getId e.getIdRet,
       Event.print "connected to the first camera from the list,id is %s\n",
       Event.call .openCam (if e.openOk then 1 else 0),
       Event.call .setReadMode e.readModeRet,
       Event.call .setStreamMode e.streamModeRet,
       Event.call .initCamera e.initCamRet,
       Event.call .setBitsMode e.bitsModeRet,
       Event.call .getChipInfo e.chipInfoRet,
       Event.print "CCD/CMOS chip information:\n",
       Event.print "Chip width %3f mm,Chip height %3f mm\n",
       Event.print "Chip pixel width %3f um,Chip pixel height %3f um\n",
       Event.print "Chip Max Resolution is %d x %d,depth is %d\n",
       Event.call .setResolution e.resolutionRet]
    if e.resolutionRet = QHYCCD_SUCCESS then
      { trace := pre2 ++
          [Event.print "SetQHYCCDResolution success!\n",
           Event.call .getMemLength e.memLength,
           Event.alloc e.memLength,
           Event.call .setParam e.setExposureRet,
           Event.call .beginLive e.beginLiveRet] ++
          liveLoop e.liveFrameRet e.fpsTick 0 fuel,
        exitCode := none }
    else
      { trace := pre2 ++ [Event.print "SetQHYCCDResolution fail\n"],
        exitCode := some 1 }

/-! Section: `test_single_opencv/main.cpp` -/

/-- Environment for `test_single_opencv`: SDK results per call site;
iteration `i` of the interactive loop reads `inputs i` from stdin and,
when it proceeds, gets `expRet i` from `ExpQHYCCDSingleFrame` and
`singleFrameRet i` from `GetQHYCCDSingleFrame`. -/
structure SingleEnv where
  initResourceRet : Int
  enableMsgRet : Int
  scanNum : Int
  getIdRet : Int
  openOk : Bool
  readModeRet : Int
  streamModeRet : Int
  initCamRet : Int
  bitsModeRet : Int
  chipInfoRet : Int
  resolutionRet : Int
  memLength : Int
  setExposureRet : Int
  inputs : Nat → Char
  expRet : Nat → Int
  singleFrameRet : Nat → Int
  fpsTick : Nat → Bool
  closeRet : Int
  releaseRet : Int

/-- One iteration of the interactive loop of `test_single_opencv`
(`main.cpp` lines 76-105): print the prompt (source text
`" 'q' = quit      any = continue "`), read a character `c`; when
`c == 'q' || c == 'Q'` print `"quit \n"` and `break` (second component
`true`); otherwise `ExpQHYCCDSingleFrame`, a 300 ms sleep,
`GetQHYCCDSingleFrame`, and on its success the frame counter print, the
`cv::Mat` wrap of `ImgData` (the buffer read, then shown), `cv::waitKey(30)`,
the fps report when the window elapsed, `cv::waitKey(100)`; then
`cv::waitKey(10)`. -/
def singleIter (c : Char) (er fr : Int) (tick : Bool) : List Event × Bool :=
  if c = 'q' ∨ c = 'Q' then
    ([Event.print "q = quit      any = continue",
      Event.readInput c, Event.print "quit \n"], true)
  else
    ([Event.print "q = quit      any = continue", Event.readInput c,
      Event.call .expSingleFrame er, Event.sleep 300000,
      Event.call .getSingleFrame fr] ++
     ((if fr = QHYCCD_SUCCESS then
         [Event.print "iCnt = %d\n", Event.readBuffer, Event.waitKey 30] ++
         (if tick then [Event.print "|QHYCCD|LIVE_DEMO|fps = %d\n"] else []) ++
         [Event.waitKey 100]
       else []) ++
      [Event.waitKey 10]), false)

/-- The interactive loop of `test_single_opencv`, iterating `singleIter`
from iteration `i` while `fuel` passes remain: returns the accumulated
events and whether the loop exited by the `break` (as opposed to the
observation fuel running out). -/
def singleLoop (inputs : Nat → Char) (er fr : Nat → Int) (tick : Nat → Bool) :
    Nat → Nat → List Event × Bool
  | _, 0 => ([], false)
  | i, fuel+1 =>
    let it := singleIter (inputs i) (er i) (fr i) (tick i)
    if it.2 then (it.1, true)
    else
      let r := singleLoop inputs er fr tick (i+1) fuel
      (it.1 ++ r.1, r.2)

/-- Shallow embedding of `main` of `test_single_opencv/main.cpp` (lines
10-111): init, message enable, scan with `num == 0` early `return 1`, get
id, open, read/stream mode (`SINGLE_MODE`), `InitQHYCCD`, bits mode, chip
info and prints, `SetQHYCCDResolution` with the only return-code check
(failure prints and `return 1`), `GetQHYCCDMemLength` and the unconditional
`malloc(length)`, exposure parameter, then the interactive loop; when the
loop `break`s (a `q`/`Q` input) the program runs `CloseQHYCCD`,
`ReleaseQHYCCDResource` and `return 0`. -/
def test_single_opencv_main (e : SingleEnv) (fuel : Nat) : Run :=
  let pre : List Event :=
    [Event.call .initResource e.initResourceRet,
     Event.call .enableMessage e.enableMsgRet,
     Event.call .scan e.scanNum,
     Event.print "Found %d cameras  \n"]
  if e.scanNum = 0 then
    { trace := pre ++ [Event.print "No camera found\n"], exitCode := some 1 }
  else
    let pre2 : List Event := pre ++
      [Event.call .getId e.getIdRet,
       Event.print "connected to the first camera from the list,id is %s\n",
       Event.call .openCam (if e.openOk then 1 else 0),
       Event.call .setReadMode e.readModeRet,
       Event.call .setStreamMode e.streamModeRet,
       Event.call .initCamera e.initCamRet,
       Event.call .setBitsMode e.bitsModeRet,
       Event.call .getChipInfo e.chipInfoRet,
       Event.print "CCD/CMOS chip information:\n",
       Event.print "Chip width %3f mm,Chip height %3f mm\n",
       Event.print "Chip pixel width %3f um,Chip pixel height %3f um\n",
       Event.print "Chip Max Resolution is %d x %d,depth is %d\n",
       Event.call .setResolution e.resolutionRet]
    if e.resolutionRet = QHYCCD_SUCCESS then
      let pre3 : List Event := pre2 ++
        [Event.print "SetQHYCCDResolution success!\n",
         Event.call .getMemLength e.memLength,
         Event.alloc e.memLength,
         Event.call .setParam e.setExposureRet]
      let lp := singleLoop e.inputs e.expRet e.singleFrameRet e.fpsTick 0 fuel
      if lp.2 then
        { trace := pre3 ++ lp.1 ++
            [Event.call .close e.closeRet,
             Event.call .releaseResource e.releaseRet],
          exitCode := some 0 }
      else
        { trace := pre3 ++ lp.1, exitCode := none }
    else
      { trace := pre2 ++ [Event.print "SetQHYCCDResolution fail\n"],
        exitCode := some 1 }

/-! Section: `base_test/main.cpp` -/

/-- Environment for `base_test`: SDK results per call site of `main` and
its helpers. `getIdRet i` is the result of `GetQHYCCDId(i, id)` in the
device-discovery `for` loop; `liveAvailRet` is the
`IsQHYCCDControlAvailable(camhandle, CAM_LIVEVIDEOMODE)` result and
`releaseRetNoLive` the `ReleaseQHYCCDResource` result in the
no-live-support branch; `transferBitRet` is the
`IsQHYCCDControlAvailable(camhandle, CONTROL_TRANSFERBIT)` result;
`getch` is the character `getchar()` reads in the bits-mode failure branch;
`setCoolerRet`, `curTemp`, `curPwm` are the results of the three parameter
calls in iteration `i` of the four-pass cooler loop. -/
structure BaseTestEnv where
  sdkVerRet : Int
  initResourceRet : Int
  enableMsgRet : Int
  scanNum : Int
  getIdRet : Nat → Int
  openOk : Bool
  readModeRet : Int
  fwRet : Int
  fwv0 : Nat
  fwv1 : Nat
  liveAvailRet : Int
  releaseRetNoLive : Int
  streamModeRet : Int
  initCamRet : Int
  transferBitRet : Int
  bitsModeRet : Int
  getch : Char
  bitsModeRet2 : Int
  chipInfoRet : Int
  resolutionRet : Int
  memLength : Int
  enableMsgRet2 : Int
  setCoolerRet : Nat → Int
  curTemp : Nat → Int
  curPwm : Nat → Int
  stopLiveRet : Int
  closeRet : Int
  releaseRet : Int

/-- The `base_test` helper `SDKVersion()` (`main.cpp` lines 27-79):
`GetQHYCCDSDKVersion`, an `sprintf` of the version into a local buffer
(the four formatting branches only affect the buffer text, which the
model does not track), and the `fprintf` of that buffer. -/
def SDKVersion (ret : Int) : List Event :=
  [Event.call .getSDKVersion ret, Event.print "QHYCCD SDK Version: %s\n"]

/-- The `base_test` helper `FirmWareVersion(h)` (`main.cpp` lines 85-145):
`GetQHYCCDFWVersion`; on success the decoded triple `firmWareTriple` is
formatted into `FWInfo` (the `fwPrint` event), otherwise the
not-found text; then the `fprintf` of the buffer. -/
def FirmWareVersion (fwRet : Int) (b0 b1 : Nat) : List Event :=
  Event.call .getFWVersion fwRet ::
  (if fwRet = QHYCCD_SUCCESS then
     [Event.fwPrint (firmWareTriple b0 b1).1 (firmWareTriple b0 b1).2.1
        (firmWareTriple b0 b1).2.2]
   else [Event.print "Firmware version:Not Found!\n"]) ++
  [Event.print "%s\n"]

/-- The device-discovery `for` loop of `base_test` (`main.cpp` lines
223-241): `GetQHYCCDId(i, id)` for `i` from `0` while iterations remain;
on the first success it prints and breaks with `found = 1` (second
component `true`). -/
def btIdLoop (f : Nat → Int) : Nat → Nat → List Event × Bool
  | _, 0 => ([], false)
  | i, fuel+1 =>
    if f i = QHYCCD_SUCCESS then
      ([Event.call .getId (f i),
        Event.print "connected to the first camera from the list,id is %s\n"],
       true)
    else
      let r := btIdLoop f (i+1) fuel
      (Event.call .getId (f i) :: r.1, r.2)

/-- The four-pass cooler loop of `base_test` (`main.cpp` lines 497-533),
starting at iteration `i` with `n` passes remaining: `usleep(2000000)`,
the `"  +  "` print, `SetQHYCCDParam(camhandle, CONTROL_COOLER, 10)`,
`GetQHYCCDParam(camhandle, CONTROL_CURTEMP)` and its `cout`,
`GetQHYCCDParam(camhandle, CONTROL_CURPWM)` and its `cout`. -/
def btCooler (e : BaseTestEnv) : Nat → Nat → List Event
  | _, 0 => []
  | i, n+1 =>
    [Event.sleep 2000000, Event.print "  +  ",
     Event.call .setParam (e.setCoolerRet i),
     Event.call .getParam (e.curTemp i), Event.coutNum (e.curTemp i),
     Event.call .getParam (e.curPwm i), Event.coutNum (e.curPwm i)] ++
    btCooler e (i+1) n

/-- The `failure:` label of `base_test` `main` (`main.cpp` lines 605-609):
print the fatal-error message and `return 1`. Every `goto failure`
terminates the run through this. -/
def btFail (tr : List Event) : Run :=
  { trace := tr ++ [Event.print "some fatal error happened\n"],
    exitCode := some 1 }

/-- Shallow embedding of `main` of `base_test/main.cpp` (lines 151-611):
`SDKVersion()`, `InitQHYCCDResource` (checked; failure `goto failure`),
`EnableQHYCCDMessage(false)`, `ScanQHYCCD` (`num > 0` checked), the
discovery loop, then on `found == 1`: `OpenQHYCCD` (null-checked),
`SetQHYCCDReadMode(camhandle, 4)`, `FirmWareVersion(camhandle)`,
`IsQHYCCDControlAvailable(CAM_LIVEVIDEOMODE)` (on `QHYCCD_ERROR`: print,
`ReleaseQHYCCDResource` with its own result print, `return 1`),
`SetQHYCCDStreamMode(camhandle, 1)` (unchecked), `InitQHYCCD` (checked),
`IsQHYCCDControlAvailable(CONTROL_TRANSFERBIT)` guarding the checked
`SetQHYCCDBitsMode(camhandle, 8)` (failure prints, `getchar()`,
`return 1`), the second unchecked `SetQHYCCDBitsMode`, `GetQHYCCDChipInfo`
(checked), `SetQHYCCDResolution` (checked), `GetQHYCCDMemLength` with the
`length > 0` guard around `malloc(length)` (else `goto failure`),
`EnableQHYCCDMessage(true)`, the cooler loop; with `found != 1` instead
`goto failure`. Then `if (camhandle)`: `StopQHYCCDLive`, `CloseQHYCCD`
(checked; failure `goto failure`); finally `ReleaseQHYCCDResource`
(checked) and `return 0`. -/
def base_test_main (e : BaseTestEnv) : Run :=
  let tr0 : List Event := SDKVersion e.sdkVerRet ++
    [Event.call .initResource e.initResourceRet,
     Event.call .enableMessage e.enableMsgRet]
  if e.initResourceRet = QHYCCD_SUCCESS then
    let tr1 : List Event := tr0 ++
      [Event.print "Init SDK success    ------!\n",
       Event.call .scan e.scanNum]
    if e.scanNum > 0 then
      let tr2 : List Event := tr1 ++
        [Event.print "Yes!Found QHYCCD,the num is %d \n"]
      let idr := btIdLoop e.getIdRet 0 e.scanNum.toNat
      let tr3 : List Event := tr2 ++ idr.1
      if idr.2 then
        let tr4 : List Event := tr3 ++
          [Event.call .openCam (if e.openOk then 1 else 0)]
        if e.openOk then
          let tr5 : List Event := tr4 ++
            [Event.print "Open QHYCCD success!\n",
             Event.call .setReadMode e.readModeRet] ++
            FirmWareVersion e.fwRet e.fwv0 e.fwv1 ++
            [Event.call .isControlAvailable e.liveAvailRet]
          if e.liveAvailRet = QHYCCD_ERROR then
            { trace := tr5 ++
                [Event.print "The detected camera is not support live frame.\n",
                 Event.call .releaseResource e.releaseRetNoLive,
                 if e.releaseRetNoLive = QHYCCD_SUCCESS then
                   Event.print "SDK resources released.\n"
                 else
                   Event.print "Cannot release SDK resources, error %d.\n"],
              exitCode := some 1 }
          else
            let tr6 : List Event := tr5 ++
              [Event.call .setStreamMode e.streamModeRet,
               Event.call .initCamera e.initCamRet]
            if e.initCamRet = QHYCCD_SUCCESS then
              let tr7 : List Event := tr6 ++
                [Event.print "bit = 8.2\n",
                 Event.print "Init QHYCCD success -------------!\n",
                 Event.call .isControlAvailable e.transferBitRet]
              let tbOk := e.transferBitRet = QHYCCD_SUCCESS
              let tr8 : List Event := tr7 ++
                (if tbOk then
                   [Event.call .setBitsMode e.bitsModeRet,
                    Event.print "bit = 8\n"]
                 else [])
              if tbOk ∧ e.bitsModeRet ≠ QHYCCD_SUCCESS then
                { trace := tr8 ++
                    [Event.print "SetQHYCCDParam CONTROL_GAIN failed\n",
                     Event.readInput e.getch],
                  exitCode := some 1 }
              else
                let tr9 : List Event := tr8 ++
                  [Event.call .setBitsMode e.bitsModeRet2,
                   Event.print "bit = 8.2\n",
                   Event.call .getChipInfo e.chipInfoRet]
                if e.chipInfoRet = QHYCCD_SUCCESS then
                  let tr10 : List Event := tr9 ++
                    [Event.print "GetQHYCCDChipInfo success!\n",
                     Event.print "CCD/CMOS chip information:\n",
                     Event.print "Chip width %3f mm,Chip height %3f mm\n",
                     Event.print "Chip pixel width %3f um,Chip pixel height %3f um\n",
                     Event.print "Chip Max Resolution is %d x %d,depth is %d\n",
                     Event.call .setResolution e.resolutionRet]
                  if e.resolutionRet = QHYCCD_SUCCESS then
                    let tr11 : List Event := tr10 ++
                      [Event.print "SetQHYCCDResolution success!\n",
                       Event.call .getMemLength e.memLength]
                    if e.memLength > 0 then
                      let tr12 : List Event := tr11 ++
                        [Event.alloc e.memLength,
                         Event.call .enableMessage e.enableMsgRet2] ++
                        btCooler e 0 4
                      -- `if (camhandle)` at line 551: on this path the
                      -- handle is the non-null one `OpenQHYCCD` returned.
                      let tr13 : List Event := tr12 ++
                        (if e.openOk then
                           [Event.call .stopLive e.stopLiveRet,
                            Event.call .close e.closeRet]
                         else [])
                      if e.openOk ∧ e.closeRet ≠ QHYCCD_SUCCESS then
                        btFail tr13
                      else
                        let tr14 : List Event := tr13 ++
                          (if e.openOk then [Event.print "Close QHYCCD success!\n"]
                           else []) ++
                          [Event.call .releaseResource e.releaseRet]
                        if e.releaseRet = QHYCCD_SUCCESS then
                          { trace := tr14 ++
                              [Event.print "Rlease SDK Resource  success!\n"],
                            exitCode := some 0 }
                        else btFail tr14
                    else
                      btFail (tr11 ++
                        [Event.print "Get the min memory space length failure \n"])
                  else btFail (tr10 ++ [Event.print "SetQHYCCDResolution fail\n"])
                else btFail (tr9 ++ [Event.print "GetQHYCCDChipInfo fail\n"])
            else btFail (tr6 ++ [Event.print "Init QHYCCD fail code:%d\n"])
        else btFail (tr4 ++ [Event.print "Open QHYCCD failed \n"])
      else
        btFail (tr3 ++ [Event.print "The camera is not QHYCCD or other error \n"])
    else
      btFail (tr1 ++
        [Event.print "Not Found QHYCCD,please check the usblink or the power\n"])
  else btFail tr0

/-! Section: Trace predicates -/

/-- Whether an event is an SDK call. -/
def isCall : Event → Bool
  | .call _ _ => true
  | _ => false

/-- Whether an event is the SDK call `c`. -/
def isCallOf (c : SDKCall) : Event → Bool
  | .call c2 _ => c2 = c
  | _ => false

/-- Whether an event is an SDK call that takes the device handle. -/
def isHandleCall : Event → Bool
  | .call c _ => usesHandle c
  | _ => false

/-- Whether an event is the frame-buffer allocation. -/
def isAlloc : Event → Bool
  | .alloc _ => true
  | _ => false

/-- Number of events satisfying `p` in a trace. -/
def countP (p : Event → Bool) : List Event → Nat
  | [] => 0
  | x :: xs => (if p x then 1 else 0) + countP p xs

/-- After the first event satisfying `trig`, no event satisfies `bad`. -/
def afterFirst (trig bad : Event → Bool) : List Event → Bool
  | [] => true
  | x :: xs => if trig x then xs.all (fun y => !bad y) else afterFirst trig bad xs

/-- The pipeline phase of an SDK call, per the spec order: resource init,
device discovery, device open, mode/parameter configuration, acquisition,
resource teardown. `GetQHYCCDSDKVersion` and `EnableQHYCCDMessage` are not
part of the spec pipeline (message toggling appears both before discovery
and between configuration steps) and carry no phase. -/
def phase : SDKCall → Option Nat
  | .initResource => some 0
  | .scan => some 1
  | .getId => some 1
  | .openCam => some 2
  | .getFWVersion => some 3
  | .setReadMode => some 3
  | .setStreamMode => some 3
  | .initCamera => some 3
  | .setBitsMode => some 3
  | .getChipInfo => some 3
  | .setResolution => some 3
  | .getMemLength => some 3
  | .isControlAvailable => some 3
  | .setParam => some 3
  | .getParam => some 3
  | .beginLive => some 4
  | .getLiveFrame => some 4
  | .expSingleFrame => some 4
  | .getSingleFrame => some 4
  | .stopLive => some 5
  | .close => some 5
  | .releaseResource => some 5
  | .getSDKVersion => none
  | .enableMessage => none

/-- The phases of the SDK calls in the trace are nondecreasing, starting
from `cur`. -/
def phasesOk : List Event → Nat → Bool
  | [], _ => true
  | .call c _ :: rest, cur =>
      match phase c with
      | none => phasesOk rest cur
      | some p => decide (cur ≤ p) && phasesOk rest p
  | _ :: rest, cur => phasesOk rest cur

/-- Every `readBuffer` event occurs while the most recent frame-fetch call
(`GetQHYCCDLiveFrame` or `GetQHYCCDSingleFrame`) returned
`QHYCCD_SUCCESS`; `ok` is that state before the trace (`false` before any
fetch). -/
def readsAfterFetchOk : List Event → Bool → Bool
  | [], _ => true
  | .call .getLiveFrame r :: rest, _ =>
      readsAfterFetchOk rest (decide (r = QHYCCD_SUCCESS))
  | .call .getSingleFrame r :: rest, _ =>
      readsAfterFetchOk rest (decide (r = QHYCCD_SUCCESS))
  | .readBuffer :: rest, ok => ok && readsAfterFetchOk rest ok
  | _ :: rest, ok => readsAfterFetchOk rest ok

/-- Whether an event is a buffer allocation whose size differs from `len`. -/
def isBadAllocSize (len : Int) : Event → Bool
  | .alloc s => decide (s ≠ len)
  | _ => false

/-- Whether an event is a buffer allocation with nonpositive size. -/
def isNonposAlloc : Event → Bool
  | .alloc s => decide (s ≤ 0)
  | _ => false

/-- Whether an event is a read of the frame buffer. -/
def isReadBufferEv : Event → Bool
  | .readBuffer => true
  | _ => false

/-- Whether an event is the console output with format string `m`. -/
def isPrintOf (m : String) : Event → Bool
  | .print m2 => m2 = m
  | _ => false

/-- Whether an event is a teardown SDK call (`StopQHYCCDLive`,
`CloseQHYCCD`, `ReleaseQHYCCDResource`). -/
def isTeardownCall : Event → Bool
  | .call .stopLive _ => true
  | .call .close _ => true
  | .call .releaseResource _ => true
  | _ => false

/-! Section: Generic lemmas about the predicates -/

theorem countP_append (p : Event → Bool) (xs ys : List Event) :
    countP p (xs ++ ys) = countP p xs + countP p ys := by
  induction xs with
  | nil => simp [countP]
  | cons x xs ih => simp [countP, ih]; omega

theorem countP_eq_zero (p : Event → Bool) (xs : List Event)
    (h : xs.all (fun x => !p x) = true) : countP p xs = 0 := by
  induction xs with
  | nil => rfl
  | cons x xs ih =>
    simp only [List.all_cons, Bool.and_eq_true, Bool.not_eq_true'] at h
    simp [countP, h.1, ih h.2]

theorem afterFirst_append (trig bad : Event → Bool) (xs ys : List Event)
    (h : xs.all (fun x => !trig x) = true) :
    afterFirst trig bad (xs ++ ys) = afterFirst trig bad ys := by
  induction xs with
  | nil => rfl
  | cons x xs ih =>
    simp only [List.all_cons, Bool.and_eq_true, Bool.not_eq_true'] at h
    simp [afterFirst, h.1, ih h.2]

theorem afterFirst_of_no_trigger (trig bad : Event → Bool) (xs : List Event)
    (h : xs.all (fun x => !trig x) = true) :
    afterFirst trig bad xs = true := by
  have := afterFirst_append trig bad xs [] h
  simpa using this

theorem readsAfterFetchOk_of_no_read (xs : List Event)
    (h : xs.all (fun x => !(isReadBufferEv x)) = true) :
    ∀ b, readsAfterFetchOk xs b = true := by
  induction xs with
  | nil => intro b; rfl
  | cons x xs ih =>
    simp only [List.all_cons, Bool.and_eq_true] at h
    intro b
    have ih2 := ih h.2
    cases x with
    | call c r => cases c <;> simp [readsAfterFetchOk, ih2]
    | alloc s => exact ih2 b
    | readBuffer => simp [isReadBufferEv] at h
    | print m => exact ih2 b
    | fwPrint a b2 c2 => exact ih2 b
    | coutNum v => exact ih2 b
    | readInput c => exact ih2 b
    | sleep u => exact ih2 b
    | waitKey m => exact ih2 b

/-! Section: Loop lemmas -/

theorem btIdLoop_all (p : Event → Bool) (f : Nat → Int)
    (h1 : ∀ r, p (Event.call .getId r) = true)
    (h2 : p (Event.print "connected to the first camera from the list,id is %s\n") = true) :
    ∀ fuel i, ((btIdLoop f i fuel).1).all p = true := by
  intro fuel
  induction fuel with
  | zero => intro i; rfl
  | succ n ih =>
    intro i
    simp only [btIdLoop]
    split_ifs <;> simp [List.all_cons, h1, h2, ih (i+1)]

theorem btCooler_all (p : Event → Bool) (e : BaseTestEnv)
    (h1 : ∀ n, p (Event.sleep n) = true)
    (h2 : p (Event.print "  +  ") = true)
    (h3 : ∀ r, p (Event.call .setParam r) = true)
    (h4 : ∀ r, p (Event.call .getParam r) = true)
    (h5 : ∀ v, p (Event.coutNum v) = true) :
    ∀ n i, (btCooler e i n).all p = true := by
  intro n
  induction n with
  | zero => intro i; rfl
  | succ m ih =>
    intro i
    simp [btCooler, List.all_cons, List.all_append, h1, h2, h3, h4, h5, ih (i+1)]

theorem liveLoop_all (p : Event → Bool) (f : Nat → Int) (t : Nat → Bool)
    (h1 : ∀ r, p (Event.call .getLiveFrame r) = true)
    (h2 : p (Event.print "iCnt = %d\n") = true)
    (h3 : p Event.readBuffer = true)
    (h4 : ∀ n, p (Event.waitKey n) = true)
    (h5 : p (Event.print "|QHYCCD|LIVE_DEMO|fps = %d\n") = true) :
    ∀ fuel i, (liveLoop f t i fuel).all p = true := by
  intro fuel
  induction fuel with
  | zero => intro i; rfl
  | succ n ih =>
    intro i
    simp only [liveLoop]
    split_ifs <;>
      simp [List.all_cons, List.all_append, h1, h2, h3, h4, h5, ih (i+1)]

theorem singleIter_all (p : Event → Bool) (c : Char) (er fr : Int) (t : Bool)
    (h0 : p (Event.print "q = quit      any = continue") = true)
    (h1 : ∀ ch, p (Event.readInput ch) = true)
    (h2 : p (Event.print "quit \n") = true)
    (h3 : ∀ r, p (Event.call .expSingleFrame r) = true)
    (h4 : ∀ n, p (Event.sleep n) = true)
    (h5 : ∀ r, p (Event.call .getSingleFrame r) = true)
    (h6 : p (Event.print "iCnt = %d\n") = true)
    (h7 : p Event.readBuffer = true)
    (h8 : ∀ n, p (Event.waitKey n) = true)
    (h9 : p (Event.print "|QHYCCD|LIVE_DEMO|fps = %d\n") = true) :
    (singleIter c er fr t).1.all p = true := by
  unfold singleIter
  split_ifs <;>
    simp [List.all_cons, List.all_append, h0, h1, h2, h3, h4, h5, h6, h7, h8, h9]

theorem singleLoop_all (p : Event → Bool)
    (inp : Nat → Char) (er fr : Nat → Int) (t : Nat → Bool)
    (h0 : p (Event.print "q = quit      any = continue") = true)
    (h1 : ∀ ch, p (Event.readInput ch) = true)
    (h2 : p (Event.print "quit \n") = true)
    (h3 : ∀ r, p (Event.call .expSingleFrame r) = true)
    (h4 : ∀ n, p (Event.sleep n) = true)
    (h5 : ∀ r, p (Event.call .getSingleFrame r) = true)
    (h6 : p (Event.print "iCnt = %d\n") = true)
    (h7 : p Event.readBuffer = true)
    (h8 : ∀ n, p (Event.waitKey n) = true)
    (h9 : p (Event.print "|QHYCCD|LIVE_DEMO|fps = %d\n") = true) :
    ∀ fuel i, ((singleLoop inp er fr t i fuel).1).all p = true := by
  intro fuel
  induction fuel with
  | zero => intro i; rfl
  | succ n ih =>
    intro i
    have hit := singleIter_all p (inp i) (er i) (fr i) (t i)
      h0 h1 h2 h3 h4 h5 h6 h7 h8 h9
    simp only [singleLoop]
    split_ifs <;> simp [List.all_append, hit, ih (i+1)]

theorem btIdLoop_phases (f : Nat → Int) :
    ∀ fuel i ys cur, cur ≤ 1 → phasesOk ys 1 = true → phasesOk ys cur = true →
      phasesOk ((btIdLoop f i fuel).1 ++ ys) cur = true := by
  intro fuel
  induction fuel with
  | zero => intro i ys cur _ _ hyc; simpa using hyc
  | succ n ih =>
    intro i ys cur h1 hy1 hyc
    simp only [btIdLoop]
    split_ifs with h
    · simp [phasesOk, phase, h1, hy1]
    · simp only [List.cons_append]
      simp [phasesOk, phase, h1]
      exact ih (i+1) ys 1 le_rfl hy1 hy1

theorem btCooler_phases (e : BaseTestEnv) :
    ∀ n i ys cur, cur ≤ 3 → phasesOk ys 3 = true → phasesOk ys cur = true →
      phasesOk (btCooler e i n ++ ys) cur = true := by
  intro n
  induction n with
  | zero => intro i ys cur _ _ hyc; simpa using hyc
  | succ m ih =>
    intro i ys cur h3 hy3 hyc
    simp only [btCooler, List.append_assoc, List.cons_append, List.nil_append]
    simp [phasesOk, phase, h3]
    exact ih (i+1) ys 3 le_rfl hy3 hy3

theorem liveLoop_phases (f : Nat → Int) (t : Nat → Bool) :
    ∀ fuel i cur, cur ≤ 4 → phasesOk (liveLoop f t i fuel) cur = true := by
  intro fuel
  induction fuel with
  | zero => intro i cur _; rfl
  | succ n ih =>
    intro i cur h
    simp only [liveLoop]
    split_ifs <;> simp [phasesOk, phase, h, ih (i+1) 4 le_rfl]

theorem singleLoop_phases (inp : Nat → Char) (er fr : Nat → Int) (t : Nat → Bool) :
    ∀ fuel i ys cur, cur ≤ 4 → phasesOk ys 4 = true → phasesOk ys cur = true →
      phasesOk ((singleLoop inp er fr t i fuel).1 ++ ys) cur = true := by
  intro fuel
  induction fuel with
  | zero => intro i ys cur _ _ hyc; simpa using hyc
  | succ n ih =>
    intro i ys cur h4 hy4 hyc
    by_cases hq : inp i = 'q' ∨ inp i = 'Q'
    · simpa [singleLoop, singleIter, hq, phasesOk] using hyc
    · have hrec := ih (i+1) ys 4 le_rfl hy4 hy4
      by_cases hfr : fr i = QHYCCD_SUCCESS <;>
        by_cases ht : t i = true <;>
        simp [singleLoop, singleIter, hq, hfr, ht, phasesOk, phase, h4,
          List.append_assoc, hrec]

theorem liveLoop_reads (f : Nat → Int) (t : Nat → Bool) :
    ∀ fuel i b, readsAfterFetchOk (liveLoop f t i fuel) b = true := by
  intro fuel
  induction fuel with
  | zero => intro i b; rfl
  | succ n ih =>
    intro i b
    simp only [liveLoop]
    split_ifs with hs ht <;> simp [readsAfterFetchOk, hs, ih (i+1)]

theorem singleLoop_reads (inp : Nat → Char) (er fr : Nat → Int) (t : Nat → Bool) :
    ∀ fuel i ys, (∀ b, readsAfterFetchOk ys b = true) →
      ∀ b, readsAfterFetchOk ((singleLoop inp er fr t i fuel).1 ++ ys) b = true := by
  intro fuel
  induction fuel with
  | zero => intro i ys hys b; simpa using hys b
  | succ n ih =>
    intro i ys hys b
    by_cases hq : inp i = 'q' ∨ inp i = 'Q'
    · simpa [singleLoop, singleIter, hq, readsAfterFetchOk] using hys b
    · have hrec := ih (i+1) ys hys
      by_cases hfr : fr i = QHYCCD_SUCCESS <;>
        by_cases ht : t i = true <;>
        simp [singleLoop, singleIter, hq, hfr, ht, readsAfterFetchOk,
          List.append_assoc, hrec]

theorem liveLoop_fetchCount (f : Nat → Int) (t : Nat → Bool) :
    ∀ fuel i, countP (isCallOf .getLiveFrame) (liveLoop f t i fuel) = fuel := by
  intro fuel
  induction fuel with
  | zero => intro i; rfl
  | succ n ih =>
    intro i
    simp only [liveLoop]
    split_ifs <;>
      simp [countP, countP_append, isCallOf, ih (i+1), Nat.add_comm]

/-! Section: Which SDK calls each loop makes -/

theorem btIdLoop_no_call (c : SDKCall) (hc : SDKCall.getId ≠ c)
    (f : Nat → Int) (fuel i : Nat) :
    ((btIdLoop f i fuel).1).all (fun x => !(isCallOf c x)) = true := by
  apply btIdLoop_all
  · intro r; simp [isCallOf, hc]
  · simp [isCallOf]

theorem btCooler_no_call (c : SDKCall) (h1 : SDKCall.setParam ≠ c)
    (h2 : SDKCall.getParam ≠ c) (e : BaseTestEnv) (n i : Nat) :
    (btCooler e i n).all (fun x => !(isCallOf c x)) = true := by
  apply btCooler_all <;> intros <;> simp [isCallOf, h1, h2]

theorem liveLoop_no_call (c : SDKCall) (h1 : SDKCall.getLiveFrame ≠ c)
    (f : Nat → Int) (t : Nat → Bool) (fuel i : Nat) :
    (liveLoop f t i fuel).all (fun x => !(isCallOf c x)) = true := by
  apply liveLoop_all <;> intros <;> simp [isCallOf, h1]

theorem singleLoop_no_call (c : SDKCall) (h1 : SDKCall.expSingleFrame ≠ c)
    (h2 : SDKCall.getSingleFrame ≠ c)
    (inp : Nat → Char) (er fr : Nat → Int) (t : Nat → Bool) (fuel i : Nat) :
    ((singleLoop inp er fr t i fuel).1).all (fun x => !(isCallOf c x)) = true := by
  apply singleLoop_all <;> intros <;> simp [isCallOf, h1, h2]

theorem FirmWareVersion_all (p : Event → Bool)
    (h1 : ∀ r, p (Event.call .getFWVersion r) = true)
    (h2 : ∀ a b c, p (Event.fwPrint a b c) = true)
    (h3 : ∀ m, p (Event.print m) = true)
    (r : Int) (b0 b1 : Nat) : (FirmWareVersion r b0 b1).all p = true := by
  unfold FirmWareVersion
  split_ifs <;> simp [h1, h2, h3]

theorem FirmWareVersion_phases (r : Int) (b0 b1 : Nat) (ys : List Event) (cur : Nat)
    (h : cur ≤ 3) (hys : phasesOk ys 3 = true) :
    phasesOk (FirmWareVersion r b0 b1 ++ ys) cur = true := by
  unfold FirmWareVersion
  split_ifs <;> simp [phasesOk, phase, h, hys]

set_option maxHeartbeats 6400000 in
/-- All the trace facts about `base_test` the claims need, proven together
over the full branch structure of its `main`: the handle is never used
after `CloseQHYCCD`, no SDK call follows `ReleaseQHYCCDResource`, the
pipeline phases are nondecreasing, `CloseQHYCCD` happens at most once and
exactly once on the success exit, at most one buffer allocation happens,
every allocation has the `GetQHYCCDMemLength` size and positive size, and
the frame buffer is never read. -/
theorem base_test_facts (e : BaseTestEnv) :
    afterFirst (isCallOf .close) isHandleCall (base_test_main e).trace = true ∧
    afterFirst (isCallOf .releaseResource) isCall (base_test_main e).trace = true ∧
    phasesOk (base_test_main e).trace 0 = true ∧
    countP (isCallOf .close) (base_test_main e).trace ≤ 1 ∧
    ((base_test_main e).exitCode = some 0 →
      countP (isCallOf .close) (base_test_main e).trace = 1) ∧
    countP isAlloc (base_test_main e).trace ≤ 1 ∧
    countP (isBadAllocSize e.memLength) (base_test_main e).trace = 0 ∧
    countP isNonposAlloc (base_test_main e).trace = 0 ∧
    countP isReadBufferEv (base_test_main e).trace = 0 := by
  have hidClose := btIdLoop_no_call .close (by decide) e.getIdRet e.scanNum.toNat 0
  have hidRel := btIdLoop_no_call .releaseResource (by decide) e.getIdRet e.scanNum.toNat 0
  have hcoolClose := btCooler_no_call .close (by decide) (by decide) e 4 0
  have hcoolRel := btCooler_no_call .releaseResource (by decide) (by decide) e 4 0
  have hfwClose := FirmWareVersion_all (fun x => !(isCallOf .close x))
    (fun _ => rfl) (fun _ _ _ => rfl) (fun _ => rfl) e.fwRet e.fwv0 e.fwv1
  have hfwRel := FirmWareVersion_all (fun x => !(isCallOf .releaseResource x))
    (fun _ => rfl) (fun _ _ _ => rfl) (fun _ => rfl) e.fwRet e.fwv0 e.fwv1
  have hidCloseC := countP_eq_zero _ _ hidClose
  have hcoolCloseC := countP_eq_zero _ _ hcoolClose
  have hfwCloseC := countP_eq_zero _ _ hfwClose
  have hidAllocC := countP_eq_zero isAlloc _
    (btIdLoop_all _ e.getIdRet (fun _ => rfl) rfl e.scanNum.toNat 0)
  have hcoolAllocC := countP_eq_zero isAlloc _
    (btCooler_all _ e (fun _ => rfl) rfl (fun _ => rfl) (fun _ => rfl) (fun _ => rfl) 4 0)
  have hfwAllocC := countP_eq_zero isAlloc _
    (FirmWareVersion_all _ (fun _ => rfl) (fun _ _ _ => rfl) (fun _ => rfl)
      e.fwRet e.fwv0 e.fwv1)
  have hidBadC := countP_eq_zero (isBadAllocSize e.memLength) _
    (btIdLoop_all _ e.getIdRet (fun _ => rfl) rfl e.scanNum.toNat 0)
  have hcoolBadC := countP_eq_zero (isBadAllocSize e.memLength) _
    (btCooler_all _ e (fun _ => rfl) rfl (fun _ => rfl) (fun _ => rfl) (fun _ => rfl) 4 0)
  have hfwBadC := countP_eq_zero (isBadAllocSize e.memLength) _
    (FirmWareVersion_all _ (fun _ => rfl) (fun _ _ _ => rfl) (fun _ => rfl)
      e.fwRet e.fwv0 e.fwv1)
  have hidNposC := countP_eq_zero isNonposAlloc _
    (btIdLoop_all _ e.getIdRet (fun _ => rfl) rfl e.scanNum.toNat 0)
  have hcoolNposC := countP_eq_zero isNonposAlloc _
    (btCooler_all _ e (fun _ => rfl) rfl (fun _ => rfl) (fun _ => rfl) (fun _ => rfl) 4 0)
  have hfwNposC := countP_eq_zero isNonposAlloc _
    (FirmWareVersion_all _ (fun _ => rfl) (fun _ _ _ => rfl) (fun _ => rfl)
      e.fwRet e.fwv0 e.fwv1)
  have hidReadC := countP_eq_zero isReadBufferEv _
    (btIdLoop_all _ e.getIdRet (fun _ => rfl) rfl e.scanNum.toNat 0)
  have hcoolReadC := countP_eq_zero isReadBufferEv _
    (btCooler_all _ e (fun _ => rfl) rfl (fun _ => rfl) (fun _ => rfl) (fun _ => rfl) 4 0)
  have hfwReadC := countP_eq_zero isReadBufferEv _
    (FirmWareVersion_all _ (fun _ => rfl) (fun _ _ _ => rfl) (fun _ => rfl)
      e.fwRet e.fwv0 e.fwv1)
  have hfwPh := FirmWareVersion_phases e.fwRet e.fwv0 e.fwv1
  simp only [base_test_main, SDKVersion, btFail]
  set fwEvents := FirmWareVersion e.fwRet e.fwv0 e.fwv1 with hFW
  clear hFW
  clear_value fwEvents
  by_cases h1 : e.initResourceRet = QHYCCD_SUCCESS
  case neg =>
      simp [*, base_test_main, SDKVersion, btFail, afterFirst, phasesOk, phase,
        countP, countP_append, isCallOf, isHandleCall, isCall, usesHandle, isAlloc,
        isBadAllocSize, isNonposAlloc, isReadBufferEv, List.append_assoc,
        afterFirst_append _ _ _ _ hidClose, afterFirst_append _ _ _ _ hidRel,
        afterFirst_append _ _ _ _ hcoolClose, afterFirst_append _ _ _ _ hcoolRel,
        afterFirst_append _ _ _ _ hfwClose, afterFirst_append _ _ _ _ hfwRel,
        afterFirst_of_no_trigger _ _ _ hidClose, afterFirst_of_no_trigger _ _ _ hidRel,
        afterFirst_of_no_trigger _ _ _ hcoolClose, afterFirst_of_no_trigger _ _ _ hcoolRel,
        afterFirst_of_no_trigger _ _ _ hfwClose, afterFirst_of_no_trigger _ _ _ hfwRel,
        btIdLoop_phases, btCooler_phases, FirmWareVersion_phases]
  by_cases h2 : e.scanNum > 0
  case neg =>
      simp [*, base_test_main, SDKVersion, btFail, afterFirst, phasesOk, phase,
        countP, countP_append, isCallOf, isHandleCall, isCall, usesHandle, isAlloc,
        isBadAllocSize, isNonposAlloc, isReadBufferEv, List.append_assoc,
        afterFirst_append _ _ _ _ hidClose, afterFirst_append _ _ _ _ hidRel,
        afterFirst_append _ _ _ _ hcoolClose, afterFirst_append _ _ _ _ hcoolRel,
        afterFirst_append _ _ _ _ hfwClose, afterFirst_append _ _ _ _ hfwRel,
        afterFirst_of_no_trigger _ _ _ hidClose, afterFirst_of_no_trigger _ _ _ hidRel,
        afterFirst_of_no_trigger _ _ _ hcoolClose, afterFirst_of_no_trigger _ _ _ hcoolRel,
        afterFirst_of_no_trigger _ _ _ hfwClose, afterFirst_of_no_trigger _ _ _ hfwRel,
        btIdLoop_phases, btCooler_phases, FirmWareVersion_phases]
  by_cases h3 : (btIdLoop e.getIdRet 0 e.scanNum.toNat).2 = true
  case neg =>
      simp [*, base_test_main, SDKVersion, btFail, afterFirst, phasesOk, phase,
        countP, countP_append, isCallOf, isHandleCall, isCall, usesHandle, isAlloc,
        isBadAllocSize, isNonposAlloc, isReadBufferEv, List.append_assoc,
        afterFirst_append _ _ _ _ hidClose, afterFirst_append _ _ _ _ hidRel,
        afterFirst_append _ _ _ _ hcoolClose, afterFirst_append _ _ _ _ hcoolRel,
        afterFirst_append _ _ _ _ hfwClose, afterFirst_append _ _ _ _ hfwRel,
        afterFirst_of_no_trigger _ _ _ hidClose, afterFirst_of_no_trigger _ _ _ hidRel,
        afterFirst_of_no_trigger _ _ _ hcoolClose, afterFirst_of_no_trigger _ _ _ hcoolRel,
        afterFirst_of_no_trigger _ _ _ hfwClose, afterFirst_of_no_trigger _ _ _ hfwRel,
        btIdLoop_phases, btCooler_phases, FirmWareVersion_phases]
  by_cases h4 : e.openOk = true
  case neg =>
      simp [*, base_test_main, SDKVersion, btFail, afterFirst, phasesOk, phase,
        countP, countP_append, isCallOf, isHandleCall, isCall, usesHandle, isAlloc,
        isBadAllocSize, isNonposAlloc, isReadBufferEv, List.append_assoc,
        afterFirst_append _ _ _ _ hidClose, afterFirst_append _ _ _ _ hidRel,
        afterFirst_append _ _ _ _ hcoolClose, afterFirst_append _ _ _ _ hcoolRel,
        afterFirst_append _ _ _ _ hfwClose, afterFirst_append _ _ _ _ hfwRel,
        afterFirst_of_no_trigger _ _ _ hidClose, afterFirst_of_no_trigger _ _ _ hidRel,
        afterFirst_of_no_trigger _ _ _ hcoolClose, afterFirst_of_no_trigger _ _ _ hcoolRel,
        afterFirst_of_no_trigger _ _ _ hfwClose, afterFirst_of_no_trigger _ _ _ hfwRel,
        btIdLoop_phases, btCooler_phases, FirmWareVersion_phases]
  by_cases h5 : e.liveAvailRet = QHYCCD_ERROR
  case pos =>
    by_cases h5b : e.releaseRetNoLive = QHYCCD_SUCCESS
    all_goals
      simp [*, base_test_main, SDKVersion, btFail, afterFirst, phasesOk, phase,
        countP, countP_append, isCallOf, isHandleCall, isCall, usesHandle, isAlloc,
        isBadAllocSize, isNonposAlloc, isReadBufferEv, List.append_assoc,
        afterFirst_append _ _ _ _ hidClose, afterFirst_append _ _ _ _ hidRel,
        afterFirst_append _ _ _ _ hcoolClose, afterFirst_append _ _ _ _ hcoolRel,
        afterFirst_append _ _ _ _ hfwClose, afterFirst_append _ _ _ _ hfwRel,
        afterFirst_of_no_trigger _ _ _ hidClose, afterFirst_of_no_trigger _ _ _ hidRel,
        afterFirst_of_no_trigger _ _ _ hcoolClose, afterFirst_of_no_trigger _ _ _ hcoolRel,
        afterFirst_of_no_trigger _ _ _ hfwClose, afterFirst_of_no_trigger _ _ _ hfwRel,
        btIdLoop_phases, btCooler_phases, FirmWareVersion_phases]
  by_cases h7 : e.initCamRet = QHYCCD_SUCCESS
  case neg =>
      simp [*, base_test_main, SDKVersion, btFail, afterFirst, phasesOk, phase,
        countP, countP_append, isCallOf, isHandleCall, isCall, usesHandle, isAlloc,
        isBadAllocSize, isNonposAlloc, isReadBufferEv, List.append_assoc,
        afterFirst_append _ _ _ _ hidClose, afterFirst_append _ _ _ _ hidRel,
        afterFirst_append _ _ _ _ hcoolClose, afterFirst_append _ _ _ _ hcoolRel,
        afterFirst_append _ _ _ _ hfwClose, afterFirst_append _ _ _ _ hfwRel,
        afterFirst_of_no_trigger _ _ _ hidClose, afterFirst_of_no_trigger _ _ _ hidRel,
        afterFirst_of_no_trigger _ _ _ hcoolClose, afterFirst_of_no_trigger _ _ _ hcoolRel,
        afterFirst_of_no_trigger _ _ _ hfwClose, afterFirst_of_no_trigger _ _ _ hfwRel,
        btIdLoop_phases, btCooler_phases, FirmWareVersion_phases]
  by_cases h8 : e.transferBitRet = QHYCCD_SUCCESS
  case pos =>
    by_cases h8b : e.bitsModeRet = QHYCCD_SUCCESS
    case neg =>
      simp [*, base_test_main, SDKVersion, btFail, afterFirst, phasesOk, phase,
        countP, countP_append, isCallOf, isHandleCall, isCall, usesHandle, isAlloc,
        isBadAllocSize, isNonposAlloc, isReadBufferEv, List.append_assoc,
        afterFirst_append _ _ _ _ hidClose, afterFirst_append _ _ _ _ hidRel,
        afterFirst_append _ _ _ _ hcoolClose, afterFirst_append _ _ _ _ hcoolRel,
        afterFirst_append _ _ _ _ hfwClose, afterFirst_append _ _ _ _ hfwRel,
        afterFirst_of_no_trigger _ _ _ hidClose, afterFirst_of_no_trigger _ _ _ hidRel,
        afterFirst_of_no_trigger _ _ _ hcoolClose, afterFirst_of_no_trigger _ _ _ hcoolRel,
        afterFirst_of_no_trigger _ _ _ hfwClose, afterFirst_of_no_trigger _ _ _ hfwRel,
        btIdLoop_phases, btCooler_phases, FirmWareVersion_phases]
    by_cases h9 : e.chipInfoRet = QHYCCD_SUCCESS
    case neg =>
      simp [*, base_test_main, SDKVersion, btFail, afterFirst, phasesOk, phase,
        countP, countP_append, isCallOf, isHandleCall, isCall, usesHandle, isAlloc,
        isBadAllocSize, isNonposAlloc, isReadBufferEv, List.append_assoc,
        afterFirst_append _ _ _ _ hidClose, afterFirst_append _ _ _ _ hidRel,
        afterFirst_append _ _ _ _ hcoolClose, afterFirst_append _ _ _ _ hcoolRel,
        afterFirst_append _ _ _ _ hfwClose, afterFirst_append _ _ _ _ hfwRel,
        afterFirst_of_no_trigger _ _ _ hidClose, afterFirst_of_no_trigger _ _ _ hidRel,
        afterFirst_of_no_trigger _ _ _ hcoolClose, afterFirst_of_no_trigger _ _ _ hcoolRel,
        afterFirst_of_no_trigger _ _ _ hfwClose, afterFirst_of_no_trigger _ _ _ hfwRel,
        btIdLoop_phases, btCooler_phases, FirmWareVersion_phases]
    by_cases h10 : e.resolutionRet = QHYCCD_SUCCESS
    case neg =>
      simp [*, base_test_main, SDKVersion, btFail, afterFirst, phasesOk, phase,
        countP, countP_append, isCallOf, isHandleCall, isCall, usesHandle, isAlloc,
        isBadAllocSize, isNonposAlloc, isReadBufferEv, List.append_assoc,
        afterFirst_append _ _ _ _ hidClose, afterFirst_append _ _ _ _ hidRel,
        afterFirst_append _ _ _ _ hcoolClose, afterFirst_append _ _ _ _ hcoolRel,
        afterFirst_append _ _ _ _ hfwClose, afterFirst_append _ _ _ _ hfwRel,
        afterFirst_of_no_trigger _ _ _ hidClose, afterFirst_of_no_trigger _ _ _ hidRel,
        afterFirst_of_no_trigger _ _ _ hcoolClose, afterFirst_of_no_trigger _ _ _ hcoolRel,
        afterFirst_of_no_trigger _ _ _ hfwClose, afterFirst_of_no_trigger _ _ _ hfwRel,
        btIdLoop_phases, btCooler_phases, FirmWareVersion_phases]
    by_cases h11 : e.memLength > 0
    case neg =>
      simp [*, base_test_main, SDKVersion, btFail, afterFirst, phasesOk, phase,
        countP, countP_append, isCallOf, isHandleCall, isCall, usesHandle, isAlloc,
        isBadAllocSize, isNonposAlloc, isReadBufferEv, List.append_assoc,
        afterFirst_append _ _ _ _ hidClose, afterFirst_append _ _ _ _ hidRel,
        afterFirst_append _ _ _ _ hcoolClose, afterFirst_append _ _ _ _ hcoolRel,
        afterFirst_append _ _ _ _ hfwClose, afterFirst_append _ _ _ _ hfwRel,
        afterFirst_of_no_trigger _ _ _ hidClose, afterFirst_of_no_trigger _ _ _ hidRel,
        afterFirst_of_no_trigger _ _ _ hcoolClose, afterFirst_of_no_trigger _ _ _ hcoolRel,
        afterFirst_of_no_trigger _ _ _ hfwClose, afterFirst_of_no_trigger _ _ _ hfwRel,
        btIdLoop_phases, btCooler_phases, FirmWareVersion_phases]
    by_cases h12 : e.closeRet = QHYCCD_SUCCESS
    case neg =>
      simp [*, base_test_main, SDKVersion, btFail, afterFirst, phasesOk, phase,
        countP, countP_append, isCallOf, isHandleCall, isCall, usesHandle, isAlloc,
        isBadAllocSize, isNonposAlloc, isReadBufferEv, List.append_assoc,
        afterFirst_append _ _ _ _ hidClose, afterFirst_append _ _ _ _ hidRel,
        afterFirst_append _ _ _ _ hcoolClose, afterFirst_append _ _ _ _ hcoolRel,
        afterFirst_append _ _ _ _ hfwClose, afterFirst_append _ _ _ _ hfwRel,
        afterFirst_of_no_trigger _ _ _ hidClose, afterFirst_of_no_trigger _ _ _ hidRel,
        afterFirst_of_no_trigger _ _ _ hcoolClose, afterFirst_of_no_trigger _ _ _ hcoolRel,
        afterFirst_of_no_trigger _ _ _ hfwClose, afterFirst_of_no_trigger _ _ _ hfwRel,
        btIdLoop_phases, btCooler_phases, FirmWareVersion_phases]
    by_cases h13 : e.releaseRet = QHYCCD_SUCCESS
    all_goals
      simp [*, base_test_main, SDKVersion, btFail, afterFirst, phasesOk, phase,
        countP, countP_append, isCallOf, isHandleCall, isCall, usesHandle, isAlloc,
        isBadAllocSize, isNonposAlloc, isReadBufferEv, List.append_assoc,
        afterFirst_append _ _ _ _ hidClose, afterFirst_append _ _ _ _ hidRel,
        afterFirst_append _ _ _ _ hcoolClose, afterFirst_append _ _ _ _ hcoolRel,
        afterFirst_append _ _ _ _ hfwClose, afterFirst_append _ _ _ _ hfwRel,
        afterFirst_of_no_trigger _ _ _ hidClose, afterFirst_of_no_trigger _ _ _ hidRel,
        afterFirst_of_no_trigger _ _ _ hcoolClose, afterFirst_of_no_trigger _ _ _ hcoolRel,
        afterFirst_of_no_trigger _ _ _ hfwClose, afterFirst_of_no_trigger _ _ _ hfwRel,
        btIdLoop_phases, btCooler_phases, FirmWareVersion_phases]
  case neg =>
    by_cases h9 : e.chipInfoRet = QHYCCD_SUCCESS
    case neg =>
      simp [*, base_test_main, SDKVersion, btFail, afterFirst, phasesOk, phase,
        countP, countP_append, isCallOf, isHandleCall, isCall, usesHandle, isAlloc,
        isBadAllocSize, isNonposAlloc, isReadBufferEv, List.append_assoc,
        afterFirst_append _ _ _ _ hidClose, afterFirst_append _ _ _ _ hidRel,
        afterFirst_append _ _ _ _ hcoolClose, afterFirst_append _ _ _ _ hcoolRel,
        afterFirst_append _ _ _ _ hfwClose, afterFirst_append _ _ _ _ hfwRel,
        afterFirst_of_no_trigger _ _ _ hidClose, afterFirst_of_no_trigger _ _ _ hidRel,
        afterFirst_of_no_trigger _ _ _ hcoolClose, afterFirst_of_no_trigger _ _ _ hcoolRel,
        afterFirst_of_no_trigger _ _ _ hfwClose, afterFirst_of_no_trigger _ _ _ hfwRel,
        btIdLoop_phases, btCooler_phases, FirmWareVersion_phases]
    by_cases h10 : e.resolutionRet = QHYCCD_SUCCESS
    case neg =>
      simp [*, base_test_main, SDKVersion, btFail, afterFirst, phasesOk, phase,
        countP, countP_append, isCallOf, isHandleCall, isCall, usesHandle, isAlloc,
        isBadAllocSize, isNonposAlloc, isReadBufferEv, List.append_assoc,
        afterFirst_append _ _ _ _ hidClose, afterFirst_append _ _ _ _ hidRel,
        afterFirst_append _ _ _ _ hcoolClose, afterFirst_append _ _ _ _ hcoolRel,
        afterFirst_append _ _ _ _ hfwClose, afterFirst_append _ _ _ _ hfwRel,
        afterFirst_of_no_trigger _ _ _ hidClose, afterFirst_of_no_trigger _ _ _ hidRel,
        afterFirst_of_no_trigger _ _ _ hcoolClose, afterFirst_of_no_trigger _ _ _ hcoolRel,
        afterFirst_of_no_trigger _ _ _ hfwClose, afterFirst_of_no_trigger _ _ _ hfwRel,
        btIdLoop_phases, btCooler_phases, FirmWareVersion_phases]
    by_cases h11 : e.memLength > 0
    case neg =>
      simp [*, base_test_main, SDKVersion, btFail, afterFirst, phasesOk, phase,
        countP, countP_append, isCallOf, isHandleCall, isCall, usesHandle, isAlloc,
        isBadAllocSize, isNonposAlloc, isReadBufferEv, List.append_assoc,
        afterFirst_append _ _ _ _ hidClose, afterFirst_append _ _ _ _ hidRel,
        afterFirst_append _ _ _ _ hcoolClose, afterFirst_append _ _ _ _ hcoolRel,
        afterFirst_append _ _ _ _ hfwClose, afterFirst_append _ _ _ _ hfwRel,
        afterFirst_of_no_trigger _ _ _ hidClose, afterFirst_of_no_trigger _ _ _ hidRel,
        afterFirst_of_no_trigger _ _ _ hcoolClose, afterFirst_of_no_trigger _ _ _ hcoolRel,
        afterFirst_of_no_trigger _ _ _ hfwClose, afterFirst_of_no_trigger _ _ _ hfwRel,
        btIdLoop_phases, btCooler_phases, FirmWareVersion_phases]
    by_cases h12 : e.closeRet = QHYCCD_SUCCESS
    case neg =>
      simp [*, base_test_main, SDKVersion, btFail, afterFirst, phasesOk, phase,
        countP, countP_append, isCallOf, isHandleCall, isCall, usesHandle, isAlloc,
        isBadAllocSize, isNonposAlloc, isReadBufferEv, List.append_assoc,
        afterFirst_append _ _ _ _ hidClose, afterFirst_append _ _ _ _ hidRel,
        afterFirst_append _ _ _ _ hcoolClose, afterFirst_append _ _ _ _ hcoolRel,
        afterFirst_append _ _ _ _ hfwClose, afterFirst_append _ _ _ _ hfwRel,
        afterFirst_of_no_trigger _ _ _ hidClose, afterFirst_of_no_trigger _ _ _ hidRel,
        afterFirst_of_no_trigger _ _ _ hcoolClose, afterFirst_of_no_trigger _ _ _ hcoolRel,
        afterFirst_of_no_trigger _ _ _ hfwClose, afterFirst_of_no_trigger _ _ _ hfwRel,
        btIdLoop_phases, btCooler_phases, FirmWareVersion_phases]
    by_cases h13 : e.releaseRet = QHYCCD_SUCCESS
    all_goals
      simp [*, base_test_main, SDKVersion, btFail, afterFirst, phasesOk, phase,
        countP, countP_append, isCallOf, isHandleCall, isCall, usesHandle, isAlloc,
        isBadAllocSize, isNonposAlloc, isReadBufferEv, List.append_assoc,
        afterFirst_append _ _ _ _ hidClose, afterFirst_append _ _ _ _ hidRel,
        afterFirst_append _ _ _ _ hcoolClose, afterFirst_append _ _ _ _ hcoolRel,
        afterFirst_append _ _ _ _ hfwClose, afterFirst_append _ _ _ _ hfwRel,
        afterFirst_of_no_trigger _ _ _ hidClose, afterFirst_of_no_trigger _ _ _ hidRel,
        afterFirst_of_no_trigger _ _ _ hcoolClose, afterFirst_of_no_trigger _ _ _ hcoolRel,
        afterFirst_of_no_trigger _ _ _ hfwClose, afterFirst_of_no_trigger _ _ _ hfwRel,
        btIdLoop_phases, btCooler_phases, FirmWareVersion_phases]

set_option maxHeartbeats 3200000 in
/-- C6: in every program, the device handle is never passed to any SDK call
after it has been released by `CloseQHYCCD`: in every run of each of the
four programs, after the first `CloseQHYCCD` call event no event is an SDK
call that takes the handle as an argument. -/
theorem C6_no_handle_use_after_close (e1 : TestBaseEnv) (e2 : BaseTestEnv)
    (e3 : LiveEnv) (e4 : SingleEnv) (f3 f4 : Nat) :
    afterFirst (isCallOf .close) isHandleCall (test_base_main e1).trace = true ∧
    afterFirst (isCallOf .close) isHandleCall (base_test_main e2).trace = true ∧
    afterFirst (isCallOf .close) isHandleCall (test_live_opencv_main e3 f3).trace = true ∧
    afterFirst (isCallOf .close) isHandleCall (test_single_opencv_main e4 f4).trace = true := by
  refine ⟨?_, ?_, ?_, ?_⟩
  · simp only [test_base_main]
    split_ifs <;> simp [afterFirst, isCallOf, isHandleCall, usesHandle]
  · exact (base_test_facts e2).1
  · have hl := liveLoop_no_call .close (by decide) e3.liveFrameRet e3.fpsTick f3 0
    simp only [test_live_opencv_main]
    split_ifs <;>
      simp [afterFirst, isCallOf, isHandleCall, usesHandle, List.append_assoc,
        afterFirst_of_no_trigger _ _ _ hl]
  · have hs := singleLoop_no_call .close (by decide) (by decide)
      e4.inputs e4.expRet e4.singleFrameRet e4.fpsTick f4 0
    simp only [test_single_opencv_main]
    split_ifs <;>
      simp [afterFirst, isCallOf, isHandleCall, usesHandle, List.append_assoc,
        afterFirst_append _ _ _ _ hs, afterFirst_of_no_trigger _ _ _ hs]

theorem all_of_countP_eq_zero (p : Event → Bool) (xs : List Event)
    (h : countP p xs = 0) : xs.all (fun x => !p x) = true := by
  induction xs with
  | nil => rfl
  | cons x xs ih =>
    simp only [countP] at h
    by_cases hx : p x
    · simp [hx] at h
    · simp [hx, ih (by omega)]

/-- C5: in every program, the frame buffer is read (wrapped in a `cv::Mat`
for display) only while the most recent frame-fetch call
(`GetQHYCCDLiveFrame` or `GetQHYCCDSingleFrame`) returned
`QHYCCD_SUCCESS`; in particular it is never read before the first
successful fetch, and never in an iteration whose fetch failed. -/
theorem C5_reads_only_after_successful_fetch (e1 : TestBaseEnv) (e2 : BaseTestEnv)
    (e3 : LiveEnv) (e4 : SingleEnv) (f3 f4 : Nat) :
    readsAfterFetchOk (test_base_main e1).trace false = true ∧
    readsAfterFetchOk (base_test_main e2).trace false = true ∧
    readsAfterFetchOk (test_live_opencv_main e3 f3).trace false = true ∧
    readsAfterFetchOk (test_single_opencv_main e4 f4).trace false = true := by
  refine ⟨?_, ?_, ?_, ?_⟩
  · simp only [test_base_main]
    split_ifs <;> simp [readsAfterFetchOk]
  · exact readsAfterFetchOk_of_no_read _
      (all_of_countP_eq_zero _ _ (base_test_facts e2).2.2.2.2.2.2.2.2) false
  · have hl := liveLoop_reads e3.liveFrameRet e3.fpsTick f3 0
    simp only [test_live_opencv_main]
    split_ifs <;> simp [readsAfterFetchOk, hl]
  · have hys : ∀ b, readsAfterFetchOk
        [Event.call .close e4.closeRet, Event.call .releaseResource e4.releaseRet] b = true := by
      intro b; simp [readsAfterFetchOk]
    have hs1 := singleLoop_reads e4.inputs e4.expRet e4.singleFrameRet e4.fpsTick f4 0
      _ hys
    have hs2 : ∀ b, readsAfterFetchOk
        ((singleLoop e4.inputs e4.expRet e4.singleFrameRet e4.fpsTick 0 f4).1) b = true := by
      intro b
      simpa using singleLoop_reads e4.inputs e4.expRet e4.singleFrameRet e4.fpsTick f4 0
        [] (by intro b2; rfl) b
    simp only [test_single_opencv_main]
    split_ifs <;>
      simp [readsAfterFetchOk, List.append_assoc, hs1, hs2]

/-! Section: Concrete environments for witnesses and counterexamples -/

/-- A fully successful environment for `test_base`. -/
def tbEnvOk : TestBaseEnv :=
  { sdkVerRet := QHYCCD_SUCCESS, initResourceRet := QHYCCD_SUCCESS,
    enableMsgRet := QHYCCD_SUCCESS, scanNum := 1, getIdRet := QHYCCD_SUCCESS,
    openOk := true, fwRet := QHYCCD_SUCCESS, fwv0 := 0x12, fwv1 := 3,
    readModeRet := QHYCCD_SUCCESS, streamModeRet := QHYCCD_SUCCESS,
    initCamRet := QHYCCD_SUCCESS, bitsModeRet := QHYCCD_SUCCESS,
    chipInfoRet := QHYCCD_SUCCESS, resolutionRet := QHYCCD_SUCCESS,
    memLength := 3056, closeRet := QHYCCD_SUCCESS, releaseRet := QHYCCD_SUCCESS }

/-- A fully successful environment for `base_test`. -/
def btEnvOk : BaseTestEnv :=
  { sdkVerRet := QHYCCD_SUCCESS, initResourceRet := QHYCCD_SUCCESS,
    enableMsgRet := QHYCCD_SUCCESS, scanNum := 1,
    getIdRet := fun _ => QHYCCD_SUCCESS, openOk := true,
    readModeRet := QHYCCD_SUCCESS, fwRet := QHYCCD_SUCCESS,
    fwv0 := 0x12, fwv1 := 3, liveAvailRet := QHYCCD_SUCCESS,
    releaseRetNoLive := QHYCCD_SUCCESS, streamModeRet := QHYCCD_SUCCESS,
    initCamRet := QHYCCD_SUCCESS, transferBitRet := QHYCCD_SUCCESS,
    bitsModeRet := QHYCCD_SUCCESS, getch := 'x',
    bitsModeRet2 := QHYCCD_SUCCESS, chipInfoRet := QHYCCD_SUCCESS,
    resolutionRet := QHYCCD_SUCCESS, memLength := 1024,
    enableMsgRet2 := QHYCCD_SUCCESS, setCoolerRet := fun _ => QHYCCD_SUCCESS,
    curTemp := fun _ => 10, curPwm := fun _ => 50,
    stopLiveRet := QHYCCD_SUCCESS, closeRet := QHYCCD_SUCCESS,
    releaseRet := QHYCCD_SUCCESS }

/-- A fully successful environment for `test_live_opencv`
(every frame fetch succeeds). -/
def liveEnvOk : LiveEnv :=
  { initResourceRet := QHYCCD_SUCCESS, enableMsgRet := QHYCCD_SUCCESS,
    scanNum := 1, getIdRet := QHYCCD_SUCCESS, openOk := true,
    readModeRet := QHYCCD_SUCCESS, streamModeRet := QHYCCD_SUCCESS,
    initCamRet := QHYCCD_SUCCESS, bitsModeRet := QHYCCD_SUCCESS,
    chipInfoRet := QHYCCD_SUCCESS, resolutionRet := QHYCCD_SUCCESS,
    memLength := 3056, setExposureRet := QHYCCD_SUCCESS,
    beginLiveRet := QHYCCD_SUCCESS, liveFrameRet := fun _ => QHYCCD_SUCCESS,
    fpsTick := fun _ => false }

/-- A fully successful environment for `test_single_opencv`: the first
stdin character continues, the second quits. -/
def singleEnvOk : SingleEnv :=
  { initResourceRet := QHYCCD_SUCCESS, enableMsgRet := QHYCCD_SUCCESS,
    scanNum := 1, getIdRet := QHYCCD_SUCCESS, openOk := true,
    readModeRet := QHYCCD_SUCCESS, streamModeRet := QHYCCD_SUCCESS,
    initCamRet := QHYCCD_SUCCESS, bitsModeRet := QHYCCD_SUCCESS,
    chipInfoRet := QHYCCD_SUCCESS, resolutionRet := QHYCCD_SUCCESS,
    memLength := 3056, setExposureRet := QHYCCD_SUCCESS,
    inputs := fun i => if i = 0 then 'a' else 'q',
    expRet := fun _ => QHYCCD_SUCCESS, singleFrameRet := fun _ => QHYCCD_SUCCESS,
    fpsTick := fun _ => false, closeRet := QHYCCD_SUCCESS,
    releaseRet := QHYCCD_SUCCESS }

/-- C8: the `while(true)` acquisition loop of `test_live_opencv` has no
`break`, `return` or exit condition: whatever the frame-fetch results, no
teardown call (`StopQHYCCDLive`, `CloseQHYCCD`, `ReleaseQHYCCDResource`)
ever appears in the trace, and every run that enters the loop fails to
terminate (its exit code is `none` for every observation fuel). -/
theorem C8_live_loop_never_terminates (e : LiveEnv) (fuel : Nat) :
    countP isTeardownCall (test_live_opencv_main e fuel).trace = 0 ∧
    (e.scanNum ≠ 0 → e.resolutionRet = QHYCCD_SUCCESS →
      (test_live_opencv_main e fuel).exitCode = none) := by
  constructor
  · have hl := countP_eq_zero isTeardownCall _
      (liveLoop_all (fun x => !(isTeardownCall x)) e.liveFrameRet e.fpsTick
        (fun _ => rfl) rfl rfl (fun _ => rfl) rfl fuel 0)
    simp only [test_live_opencv_main]
    split_ifs <;> simp [countP, countP_append, isTeardownCall, hl]
  · intro h1 h2
    simp [test_live_opencv_main, h1, h2]

/-- Witness for C8 at a concrete environment and fuel. -/
theorem C8_witness :
    countP isTeardownCall (test_live_opencv_main liveEnvOk 3).trace = 0 ∧
    (test_live_opencv_main liveEnvOk 3).exitCode = none :=
  ⟨(C8_live_loop_never_terminates liveEnvOk 3).1,
   (C8_live_loop_never_terminates liveEnvOk 3).2 (by decide) (by decide)⟩

/-- C10: in the interactive loop of `test_single_opencv`, an iteration
exits the loop exactly when the character read is `q` or `Q`; for any
other character the iteration performs exactly one `ExpQHYCCDSingleFrame`
and exactly one `GetQHYCCDSingleFrame`, with the exposure preceding the
fetch (no exposure occurs after the fetch call). -/
theorem C10_single_iteration_behaviour (c : Char) (er fr : Int) (tick : Bool) :
    ((singleIter c er fr tick).2 = true ↔ (c = 'q' ∨ c = 'Q')) ∧
    (¬(c = 'q' ∨ c = 'Q') →
      countP (isCallOf .expSingleFrame) (singleIter c er fr tick).1 = 1 ∧
      countP (isCallOf .getSingleFrame) (singleIter c er fr tick).1 = 1 ∧
      afterFirst (isCallOf .getSingleFrame) (isCallOf .expSingleFrame)
        (singleIter c er fr tick).1 = true) := by
  unfold singleIter
  constructor
  · split_ifs with h <;> simp [h]
  · intro h
    split_ifs with h2 h3 <;>
      simp [h, countP, countP_append, afterFirst, isCallOf]

/-- Witness for C10: the quit character exits; the character `x` does not
and yields one exposure followed by one fetch. -/
theorem C10_witness :
    (singleIter 'q' 0 0 false).2 = true ∧
    countP (isCallOf .expSingleFrame) (singleIter 'x' 0 0 false).1 = 1 ∧
    countP (isCallOf .getSingleFrame) (singleIter 'x' 0 0 false).1 = 1 ∧
    afterFirst (isCallOf .getSingleFrame) (isCallOf .expSingleFrame)
      (singleIter 'x' 0 0 false).1 = true :=
  ⟨(C10_single_iteration_behaviour 'q' 0 0 false).1.mpr (by decide),
   ((C10_single_iteration_behaviour 'x' 0 0 false).2 (by decide)).1,
   ((C10_single_iteration_behaviour 'x' 0 0 false).2 (by decide)).2.1,
   ((C10_single_iteration_behaviour 'x' 0 0 false).2 (by decide)).2.2⟩

/-- C9: for every firmware byte pair, the inline decoding of `test_base`
(stored into `uint8_t fwv_version[3]`) and the `FirmWareVersion` decoding
of `base_test` print the same triple, and that triple is the one the claim
states: major `(fwv[0] >> 4) + 16` when `(fwv[0] >> 4) <= 9` and
`fwv[0] >> 4` otherwise, minor `fwv[0] & 0x0F`, patch `fwv[1]`. -/
theorem C9_firmware_decodings_agree (b0 b1 : Nat) (h0 : b0 < 256) (h1 : b1 < 256) :
    (fwv_version0 b0, fwv_version1 b0, fwv_version2 b1) = firmWareTriple b0 b1 ∧
    firmWareTriple b0 b1 = specFirmwareTriple b0 b1 := by
  have hs : b0 >>> 4 = b0 / 16 := by
    simpa using Nat.shiftRight_eq_div_pow b0 4
  have ha : b0 &&& 0x0f = b0 % 16 := by
    simpa using Nat.and_pow_two_sub_one_eq_mod b0 4
  unfold fwv_version0 fwv_version1 fwv_version2 firmWareTriple specFirmwareTriple
  rw [hs, ha]
  split_ifs with h <;> refine ⟨?_, ?_⟩ <;> simp [Prod.ext_iff] <;> omega

/-- Witness for C9 at the firmware bytes `0x12`, `3`. -/
theorem C9_witness :
    (fwv_version0 18, fwv_version1 18, fwv_version2 3) = firmWareTriple 18 3 ∧
    firmWareTriple 18 3 = specFirmwareTriple 18 3 :=
  C9_firmware_decodings_agree 18 3 (by decide) (by decide)

/-- Counterexample to C1 as stated: in `test_base`, when
`SetQHYCCDResolution` fails the run reaches program exit (status 1) with
the handle obtained from `OpenQHYCCD` released zero times. -/
theorem C1_counterexample :
    (test_base_main { tbEnvOk with resolutionRet := QHYCCD_ERROR }).exitCode = some 1 ∧
    countP (isCallOf .openCam)
      (test_base_main { tbEnvOk with resolutionRet := QHYCCD_ERROR }).trace = 1 ∧
    countP (isCallOf .close)
      (test_base_main { tbEnvOk with resolutionRet := QHYCCD_ERROR }).trace = 0 := by
  decide

/-- C1 (amended): in every program and on every run, `CloseQHYCCD` is
called at most once (never twice), and on every run that exits with
status 0 it is called exactly once; error paths may exit with the handle
never released. -/
theorem C1_close_at_most_once (e1 : TestBaseEnv) (e2 : BaseTestEnv)
    (e3 : LiveEnv) (e4 : SingleEnv) (f3 f4 : Nat) :
    (countP (isCallOf .close) (test_base_main e1).trace ≤ 1 ∧
      ((test_base_main e1).exitCode = some 0 →
        countP (isCallOf .close) (test_base_main e1).trace = 1)) ∧
    (countP (isCallOf .close) (base_test_main e2).trace ≤ 1 ∧
      ((base_test_main e2).exitCode = some 0 →
        countP (isCallOf .close) (base_test_main e2).trace = 1)) ∧
    (countP (isCallOf .close) (test_live_opencv_main e3 f3).trace ≤ 1 ∧
      ((test_live_opencv_main e3 f3).exitCode = some 0 →
        countP (isCallOf .close) (test_live_opencv_main e3 f3).trace = 1)) ∧
    (countP (isCallOf .close) (test_single_opencv_main e4 f4).trace ≤ 1 ∧
      ((test_single_opencv_main e4 f4).exitCode = some 0 →
        countP (isCallOf .close) (test_single_opencv_main e4 f4).trace = 1)) := by
  refine ⟨?_, ⟨(base_test_facts e2).2.2.2.1, (base_test_facts e2).2.2.2.2.1⟩, ?_, ?_⟩
  · simp only [test_base_main]
    split_ifs <;> simp [countP, countP_append, isCallOf]
  · have hl := countP_eq_zero _ _
      (liveLoop_no_call .close (by decide) e3.liveFrameRet e3.fpsTick f3 0)
    simp only [test_live_opencv_main]
    split_ifs <;> simp [countP, countP_append, isCallOf, hl]
  · have hs := countP_eq_zero _ _
      (singleLoop_no_call .close (by decide) (by decide)
        e4.inputs e4.expRet e4.singleFrameRet e4.fpsTick f4 0)
    simp only [test_single_opencv_main]
    split_ifs <;> simp [countP, countP_append, isCallOf, hs]

/-- Witness for C1 (amended): on the fully successful `test_base` run,
which exits with status 0, `CloseQHYCCD` is called exactly once. -/
theorem C1_witness :
    countP (isCallOf .close) (test_base_main tbEnvOk).trace = 1 :=
  (C1_close_at_most_once tbEnvOk btEnvOk liveEnvOk singleEnvOk 1 2).1.2 (by decide)

/-- Counterexample to C3 as stated: the `test_base` run with zero cameras
found terminates (exit status 1) without reaching teardown: neither
`CloseQHYCCD` nor `ReleaseQHYCCDResource` is ever called. -/
theorem C3_counterexample :
    (test_base_main { tbEnvOk with scanNum := 0 }).exitCode = some 1 ∧
    countP (isCallOf .close)
      (test_base_main { tbEnvOk with scanNum := 0 }).trace = 0 ∧
    countP (isCallOf .releaseResource)
      (test_base_main { tbEnvOk with scanNum := 0 }).trace = 0 := by
  decide

/-- C3 (amended): in every program the SDK calls respect the fixed
pipeline order (resource init, discovery, open, configuration,
acquisition, teardown: the phases of successive SDK calls never decrease),
and no SDK call occurs after `ReleaseQHYCCDResource`; runs that fail a
check may terminate before reaching teardown. -/
theorem C3_pipeline_order (e1 : TestBaseEnv) (e2 : BaseTestEnv)
    (e3 : LiveEnv) (e4 : SingleEnv) (f3 f4 : Nat) :
    (phasesOk (test_base_main e1).trace 0 = true ∧
      afterFirst (isCallOf .releaseResource) isCall (test_base_main e1).trace = true) ∧
    (phasesOk (base_test_main e2).trace 0 = true ∧
      afterFirst (isCallOf .releaseResource) isCall (base_test_main e2).trace = true) ∧
    (phasesOk (test_live_opencv_main e3 f3).trace 0 = true ∧
      afterFirst (isCallOf .releaseResource) isCall (test_live_opencv_main e3 f3).trace = true) ∧
    (phasesOk (test_single_opencv_main e4 f4).trace 0 = true ∧
      afterFirst (isCallOf .releaseResource) isCall (test_single_opencv_main e4 f4).trace = true) := by
  refine ⟨⟨?_, ?_⟩, ⟨(base_test_facts e2).2.2.1, (base_test_facts e2).2.1⟩,
    ⟨?_, ?_⟩, ⟨?_, ?_⟩⟩
  · simp only [test_base_main]
    split_ifs <;> simp [phasesOk, phase]
  · simp only [test_base_main]
    split_ifs <;> simp [afterFirst, isCallOf, isCall]
  · have hl := liveLoop_phases e3.liveFrameRet e3.fpsTick f3 0
    simp only [test_live_opencv_main]
    split_ifs <;> simp [phasesOk, phase, hl 4 (by decide)]
  · have hl := afterFirst_of_no_trigger (isCallOf .releaseResource) isCall _
      (liveLoop_no_call .releaseResource (by decide) e3.liveFrameRet e3.fpsTick f3 0)
    simp only [test_live_opencv_main]
    split_ifs <;> simp [afterFirst, isCallOf, isCall, List.append_assoc, hl]
  · have hsp : phasesOk
        (singleLoop e4.inputs e4.expRet e4.singleFrameRet e4.fpsTick 0 f4).1 3 = true := by
      simpa using singleLoop_phases e4.inputs e4.expRet e4.singleFrameRet e4.fpsTick
        f4 0 [] 3 (by decide) rfl rfl
    simp only [test_single_opencv_main]
    split_ifs <;>
      simp [phasesOk, phase, List.append_assoc, singleLoop_phases, hsp]
  · have hs := singleLoop_no_call .releaseResource (by decide) (by decide)
      e4.inputs e4.expRet e4.singleFrameRet e4.fpsTick f4 0
    simp only [test_single_opencv_main]
    split_ifs <;>
      simp [afterFirst, isCallOf, isCall, List.append_assoc,
        afterFirst_append _ _ _ _ hs, afterFirst_of_no_trigger _ _ _ hs]

/-- Counterexample to C4 as stated: in `test_base` the value returned by
`GetQHYCCDMemLength` is not checked for positivity: with a returned length
of `-7` the buffer is still allocated (one allocation of nonpositive size)
and the run completes with exit status 0 instead of aborting. -/
theorem C4_counterexample :
    (test_base_main { tbEnvOk with memLength := -7 }).exitCode = some 0 ∧
    countP isNonposAlloc
      (test_base_main { tbEnvOk with memLength := -7 }).trace = 1 := by
  decide

/-- C4 (amended): in every program at most one buffer allocation happens
per run and every allocation has exactly the size returned by
`GetQHYCCDMemLength`; only `base_test` guards the allocation on a positive
length (its trace never contains a nonpositive-size allocation), while
`test_base`, `test_live_opencv` and `test_single_opencv` allocate
whatever value was returned. -/
theorem C4_single_allocation (e1 : TestBaseEnv) (e2 : BaseTestEnv)
    (e3 : LiveEnv) (e4 : SingleEnv) (f3 f4 : Nat) :
    (countP isAlloc (test_base_main e1).trace ≤ 1 ∧
      countP (isBadAllocSize e1.memLength) (test_base_main e1).trace = 0) ∧
    (countP isAlloc (base_test_main e2).trace ≤ 1 ∧
      countP (isBadAllocSize e2.memLength) (base_test_main e2).trace = 0 ∧
      countP isNonposAlloc (base_test_main e2).trace = 0) ∧
    (countP isAlloc (test_live_opencv_main e3 f3).trace ≤ 1 ∧
      countP (isBadAllocSize e3.memLength) (test_live_opencv_main e3 f3).trace = 0) ∧
    (countP isAlloc (test_single_opencv_main e4 f4).trace ≤ 1 ∧
      countP (isBadAllocSize e4.memLength) (test_single_opencv_main e4 f4).trace = 0) := by
  refine ⟨⟨?_, ?_⟩,
    ⟨(base_test_facts e2).2.2.2.2.2.1, (base_test_facts e2).2.2.2.2.2.2.1,
     (base_test_facts e2).2.2.2.2.2.2.2.1⟩, ⟨?_, ?_⟩, ⟨?_, ?_⟩⟩
  · simp only [test_base_main]
    split_ifs <;> simp [countP, countP_append, isAlloc]
  · simp only [test_base_main]
    split_ifs <;> simp [countP, countP_append, isBadAllocSize]
  · have hl := countP_eq_zero isAlloc _
      (liveLoop_all _ e3.liveFrameRet e3.fpsTick (fun _ => rfl) rfl rfl
        (fun _ => rfl) rfl f3 0)
    simp only [test_live_opencv_main]
    split_ifs <;> simp [countP, countP_append, isAlloc, hl]
  · have hl := countP_eq_zero (isBadAllocSize e3.memLength) _
      (liveLoop_all _ e3.liveFrameRet e3.fpsTick (fun _ => rfl) rfl rfl
        (fun _ => rfl) rfl f3 0)
    simp only [test_live_opencv_main]
    split_ifs <;> simp [countP, countP_append, isBadAllocSize, hl]
  · have hs := countP_eq_zero isAlloc _
      (singleLoop_all _ e4.inputs e4.expRet e4.singleFrameRet e4.fpsTick
        rfl (fun _ => rfl) rfl (fun _ => rfl) (fun _ => rfl) (fun _ => rfl)
        rfl rfl (fun _ => rfl) rfl f4 0)
    simp only [test_single_opencv_main]
    split_ifs <;> simp [countP, countP_append, isAlloc, hs]
  · have hs := countP_eq_zero (isBadAllocSize e4.memLength) _
      (singleLoop_all _ e4.inputs e4.expRet e4.singleFrameRet e4.fpsTick
        rfl (fun _ => rfl) rfl (fun _ => rfl) (fun _ => rfl) (fun _ => rfl)
        rfl rfl (fun _ => rfl) rfl f4 0)
    simp only [test_single_opencv_main]
    split_ifs <;> simp [countP, countP_append, isBadAllocSize, hs]

/-- The console output of a trace: `printf`/`sprintf+fprintf`/`cout`
events, in order. -/
def printEvents (tr : List Event) : List Event :=
  tr.filter fun ev =>
    match ev with
    | .print _ => true
    | .fwPrint _ _ _ => true
    | .coutNum _ => true
    | _ => false

/-- Counterexample to C2 as stated: in `test_base` the return code of
`InitQHYCCD` is never compared against `QHYCCD_SUCCESS`: when that call
fails the run prints exactly the same console output as the fully
successful run and still exits with status 0 — no diagnostic, no exit
jump, no loop continuation distinguishes the failure. -/
theorem C2_counterexample :
    ({ tbEnvOk with initCamRet := QHYCCD_ERROR } : TestBaseEnv).initCamRet ≠
      QHYCCD_SUCCESS ∧
    (test_base_main { tbEnvOk with initCamRet := QHYCCD_ERROR }).exitCode = some 0 ∧
    printEvents (test_base_main { tbEnvOk with initCamRet := QHYCCD_ERROR }).trace =
      printEvents (test_base_main tbEnvOk).trace := by
  decide

/-- C2 (amended): some SDK calls' return codes are checked against the
single success sentinel `QHYCCD_SUCCESS` — in `test_base`,
`test_live_opencv` and `test_single_opencv` the `SetQHYCCDResolution`
check prints a diagnostic and exits the program on failure — while other
calls' return codes are left unchecked. -/
theorem C2_resolution_check_aborts :
    (∀ e1 : TestBaseEnv, e1.scanNum ≠ 0 → e1.resolutionRet ≠ QHYCCD_SUCCESS →
      countP (isPrintOf "SetQHYCCDResolution fail\n") (test_base_main e1).trace = 1 ∧
      (test_base_main e1).exitCode = some 1) ∧
    (∀ (e3 : LiveEnv) (f3 : Nat), e3.scanNum ≠ 0 → e3.resolutionRet ≠ QHYCCD_SUCCESS →
      countP (isPrintOf "SetQHYCCDResolution fail\n")
        (test_live_opencv_main e3 f3).trace = 1 ∧
      (test_live_opencv_main e3 f3).exitCode = some 1) ∧
    (∀ (e4 : SingleEnv) (f4 : Nat), e4.scanNum ≠ 0 → e4.resolutionRet ≠ QHYCCD_SUCCESS →
      countP (isPrintOf "SetQHYCCDResolution fail\n")
        (test_single_opencv_main e4 f4).trace = 1 ∧
      (test_single_opencv_main e4 f4).exitCode = some 1) := by
  refine ⟨?_, ?_, ?_⟩
  · intro e1 h1 h2
    simp [test_base_main, h1, h2, countP, countP_append, isPrintOf]
  · intro e3 f3 h1 h2
    simp [test_live_opencv_main, h1, h2, countP, countP_append, isPrintOf]
  · intro e4 f4 h1 h2
    simp [test_single_opencv_main, h1, h2, countP, countP_append, isPrintOf]

/-- Witness for C2 (amended): the failing-resolution `test_base` run
prints the diagnostic once and exits with status 1. -/
theorem C2_witness :
    countP (isPrintOf "SetQHYCCDResolution fail\n")
      (test_base_main { tbEnvOk with resolutionRet := QHYCCD_ERROR }).trace = 1 ∧
    (test_base_main { tbEnvOk with resolutionRet := QHYCCD_ERROR }).exitCode = some 1 :=
  C2_resolution_check_aborts.1 { tbEnvOk with resolutionRet := QHYCCD_ERROR }
    (by decide) (by decide)


/-- Whether an event is an acquisition or configuration SDK call
(pipeline phases 3 and 4; teardown, discovery, init and the phase-free
logging calls are not). -/
def isAcqConfigCall : Event → Bool
  | .call c _ =>
      match phase c with
      | some 3 => true
      | some 4 => true
      | _ => false
  | _ => false

theorem afterFirst_of_all_not_bad (trig bad : Event → Bool) (xs : List Event)
    (h : xs.all (fun x => !bad x) = true) : afterFirst trig bad xs = true := by
  induction xs with
  | nil => rfl
  | cons x xs ih =>
    simp only [List.all_cons, Bool.and_eq_true] at h
    simp only [afterFirst]
    split_ifs
    · exact h.2
    · exact ih h.2

theorem FirmWareVersion_no_call (c : SDKCall) (hc : SDKCall.getFWVersion ≠ c)
    (r : Int) (b0 b1 : Nat) :
    (FirmWareVersion r b0 b1).all (fun x => !(isCallOf c x)) = true := by
  apply FirmWareVersion_all
  · intro r2; simp [isCallOf, hc]
  · intro a b c2; rfl
  · intro m; rfl

theorem btIdLoop_fail_count (f : Nat → Int) (hf : ∀ j, f j ≠ QHYCCD_SUCCESS) :
    ∀ fuel i, countP (isCallOf .getId) (btIdLoop f i fuel).1 = fuel := by
  intro fuel
  induction fuel with
  | zero => intro i; rfl
  | succ n ih =>
    intro i
    simp [btIdLoop, hf i, countP, isCallOf, ih (i+1), Nat.add_comm]

/-- The all-failing-fetch environment for `test_live_opencv`. -/
def liveEnvFail : LiveEnv :=
  { liveEnvOk with liveFrameRet := fun _ => QHYCCD_ERROR }

/-- The environment for `test_single_opencv` whose only fetch fails and
whose second stdin character quits. -/
def singleEnvFail : SingleEnv :=
  { singleEnvOk with singleFrameRet := fun _ => QHYCCD_ERROR }

/-- The `base_test` environment in which `GetQHYCCDId` fails at index 0
and succeeds at index 1, and the firmware-version and
`CONTROL_TRANSFERBIT` checks fail, everything else succeeding. -/
def btEnvC7 : BaseTestEnv :=
  { btEnvOk with
    scanNum := 2
    getIdRet := fun i => if i = 0 then QHYCCD_ERROR else QHYCCD_SUCCESS
    fwRet := QHYCCD_ERROR
    transferBitRet := QHYCCD_ERROR }

/-- Counterexample to C7 as stated: several failed return-code checks do
not abort the run. In `test_live_opencv` a failed `GetQHYCCDLiveFrame`
check is followed by a retry of the very same call in the next loop pass;
in `test_single_opencv` a run whose fetch check failed still exits with
status 0 when the user then quits; and in `base_test` a run in which the
`GetQHYCCDId` check fails at index 0 (the discovery loop continues to
index 1, two `GetQHYCCDId` calls in all), the firmware-version check
fails and the `CONTROL_TRANSFERBIT` check fails nevertheless exits with
status 0. -/
theorem C7_counterexample :
    liveEnvFail.liveFrameRet 0 ≠ QHYCCD_SUCCESS ∧
    countP (isCallOf .getLiveFrame)
      (test_live_opencv_main liveEnvFail 2).trace = 2 ∧
    singleEnvFail.singleFrameRet 0 ≠ QHYCCD_SUCCESS ∧
    (test_single_opencv_main singleEnvFail 2).exitCode = some 0 ∧
    btEnvC7.getIdRet 0 ≠ QHYCCD_SUCCESS ∧
    countP (isCallOf .getId) (base_test_main btEnvC7).trace = 2 ∧
    btEnvC7.fwRet ≠ QHYCCD_SUCCESS ∧
    btEnvC7.transferBitRet ≠ QHYCCD_SUCCESS ∧
    (base_test_main btEnvC7).exitCode = some 0 := by
  decide

/-- C7 (amended): once a return-code check fails, the program makes no
retry of the failed call and the run is aborted — it exits with status 1
and makes no further acquisition or configuration SDK call after taking
the failure branch — with these exceptions: the frame-fetch checks inside
the acquisition loops of `test_live_opencv` and `test_single_opencv`
continue the loop and retry the fetch, the `GetQHYCCDId` check of
`base_test` continues the discovery loop at the next index, and the
firmware-version and `CONTROL_TRANSFERBIT` checks of `base_test` only
skip their dependent block, the run continuing. The conjuncts prove the
abort behaviour at every non-exempt check site (`ScanQHYCCD` and
`SetQHYCCDResolution` in `test_base`, `test_live_opencv` and
`test_single_opencv`; `InitQHYCCDResource`, `ScanQHYCCD`, the exhausted
discovery loop, `OpenQHYCCD`, the `CAM_LIVEVIDEOMODE` availability check,
`InitQHYCCD`, `SetQHYCCDBitsMode`, `GetQHYCCDChipInfo`,
`SetQHYCCDResolution`, `GetQHYCCDMemLength`, `CloseQHYCCD` and
`ReleaseQHYCCDResource` in `base_test`), and the loop-continuation
behaviour of the exempted fetch and discovery checks. -/
theorem C7_failed_check_behaviour :
    (∀ e1 : TestBaseEnv, e1.scanNum = 0 →
      (test_base_main e1).exitCode = some 1 ∧
      afterFirst (isCallOf .scan) isAcqConfigCall (test_base_main e1).trace = true) ∧
    (∀ e1 : TestBaseEnv, e1.scanNum ≠ 0 → e1.resolutionRet ≠ QHYCCD_SUCCESS →
      (test_base_main e1).exitCode = some 1 ∧
      afterFirst (isCallOf .setResolution) isAcqConfigCall
        (test_base_main e1).trace = true) ∧
    (∀ (e3 : LiveEnv) (f3 : Nat), e3.scanNum = 0 →
      (test_live_opencv_main e3 f3).exitCode = some 1 ∧
      afterFirst (isCallOf .scan) isAcqConfigCall
        (test_live_opencv_main e3 f3).trace = true) ∧
    (∀ (e3 : LiveEnv) (f3 : Nat), e3.scanNum ≠ 0 → e3.resolutionRet ≠ QHYCCD_SUCCESS →
      (test_live_opencv_main e3 f3).exitCode = some 1 ∧
      afterFirst (isCallOf .setResolution) isAcqConfigCall
        (test_live_opencv_main e3 f3).trace = true) ∧
    (∀ (e4 : SingleEnv) (f4 : Nat), e4.scanNum = 0 →
      (test_single_opencv_main e4 f4).exitCode = some 1 ∧
      afterFirst (isCallOf .scan) isAcqConfigCall
        (test_single_opencv_main e4 f4).trace = true) ∧
    (∀ (e4 : SingleEnv) (f4 : Nat), e4.scanNum ≠ 0 → e4.resolutionRet ≠ QHYCCD_SUCCESS →
      (test_single_opencv_main e4 f4).exitCode = some 1 ∧
      afterFirst (isCallOf .setResolution) isAcqConfigCall
        (test_single_opencv_main e4 f4).trace = true) ∧
    (∀ e2 : BaseTestEnv, e2.initResourceRet ≠ QHYCCD_SUCCESS →
      (base_test_main e2).exitCode = some 1 ∧
      afterFirst (isCallOf .initResource) isAcqConfigCall
        (base_test_main e2).trace = true) ∧
    (∀ e2 : BaseTestEnv, e2.initResourceRet = QHYCCD_SUCCESS →
      ¬ (e2.scanNum > 0) →
      (base_test_main e2).exitCode = some 1 ∧
      afterFirst (isCallOf .scan) isAcqConfigCall (base_test_main e2).trace = true) ∧
    (∀ e2 : BaseTestEnv, e2.initResourceRet = QHYCCD_SUCCESS → e2.scanNum > 0 →
      (btIdLoop e2.getIdRet 0 e2.scanNum.toNat).2 = false →
      (base_test_main e2).exitCode = some 1 ∧
      countP isAcqConfigCall (base_test_main e2).trace = 0) ∧
    (∀ e2 : BaseTestEnv, e2.initResourceRet = QHYCCD_SUCCESS → e2.scanNum > 0 →
      (btIdLoop e2.getIdRet 0 e2.scanNum.toNat).2 = true → e2.openOk = false →
      (base_test_main e2).exitCode = some 1 ∧
      afterFirst (isCallOf .openCam) isAcqConfigCall (base_test_main e2).trace = true) ∧
    (∀ e2 : BaseTestEnv, e2.initResourceRet = QHYCCD_SUCCESS → e2.scanNum > 0 →
      (btIdLoop e2.getIdRet 0 e2.scanNum.toNat).2 = true → e2.openOk = true →
      e2.liveAvailRet = QHYCCD_ERROR →
      (base_test_main e2).exitCode = some 1 ∧
      afterFirst (isCallOf .isControlAvailable) isAcqConfigCall
        (base_test_main e2).trace = true) ∧
    (∀ e2 : BaseTestEnv, e2.initResourceRet = QHYCCD_SUCCESS → e2.scanNum > 0 →
      (btIdLoop e2.getIdRet 0 e2.scanNum.toNat).2 = true → e2.openOk = true →
      e2.liveAvailRet ≠ QHYCCD_ERROR → e2.initCamRet ≠ QHYCCD_SUCCESS →
      (base_test_main e2).exitCode = some 1 ∧
      afterFirst (isCallOf .initCamera) isAcqConfigCall
        (base_test_main e2).trace = true) ∧
    (∀ e2 : BaseTestEnv, e2.initResourceRet = QHYCCD_SUCCESS → e2.scanNum > 0 →
      (btIdLoop e2.getIdRet 0 e2.scanNum.toNat).2 = true → e2.openOk = true →
      e2.liveAvailRet ≠ QHYCCD_ERROR → e2.initCamRet = QHYCCD_SUCCESS →
      e2.transferBitRet = QHYCCD_SUCCESS → e2.bitsModeRet ≠ QHYCCD_SUCCESS →
      (base_test_main e2).exitCode = some 1 ∧
      afterFirst (isCallOf .setBitsMode) isAcqConfigCall
        (base_test_main e2).trace = true) ∧
    (∀ e2 : BaseTestEnv, e2.initResourceRet = QHYCCD_SUCCESS → e2.scanNum > 0 →
      (btIdLoop e2.getIdRet 0 e2.scanNum.toNat).2 = true → e2.openOk = true →
      e2.liveAvailRet ≠ QHYCCD_ERROR → e2.initCamRet = QHYCCD_SUCCESS →
      (e2.transferBitRet = QHYCCD_SUCCESS → e2.bitsModeRet = QHYCCD_SUCCESS) →
      e2.chipInfoRet ≠ QHYCCD_SUCCESS →
      (base_test_main e2).exitCode = some 1 ∧
      afterFirst (isCallOf .getChipInfo) isAcqConfigCall
        (base_test_main e2).trace = true) ∧
    (∀ e2 : BaseTestEnv, e2.initResourceRet = QHYCCD_SUCCESS → e2.scanNum > 0 →
      (btIdLoop e2.getIdRet 0 e2.scanNum.toNat).2 = true → e2.openOk = true →
      e2.liveAvailRet ≠ QHYCCD_ERROR → e2.initCamRet = QHYCCD_SUCCESS →
      (e2.transferBitRet = QHYCCD_SUCCESS → e2.bitsModeRet = QHYCCD_SUCCESS) →
      e2.chipInfoRet = QHYCCD_SUCCESS → e2.resolutionRet ≠ QHYCCD_SUCCESS →
      (base_test_main e2).exitCode = some 1 ∧
      afterFirst (isCallOf .setResolution) isAcqConfigCall
        (base_test_main e2).trace = true) ∧
    (∀ e2 : BaseTestEnv, e2.initResourceRet = QHYCCD_SUCCESS → e2.scanNum > 0 →
      (btIdLoop e2.getIdRet 0 e2.scanNum.toNat).2 = true → e2.openOk = true →
      e2.liveAvailRet ≠ QHYCCD_ERROR → e2.initCamRet = QHYCCD_SUCCESS →
      (e2.transferBitRet = QHYCCD_SUCCESS → e2.bitsModeRet = QHYCCD_SUCCESS) →
      e2.chipInfoRet = QHYCCD_SUCCESS → e2.resolutionRet = QHYCCD_SUCCESS →
      ¬ (e2.memLength > 0) →
      (base_test_main e2).exitCode = some 1 ∧
      afterFirst (isCallOf .getMemLength) isAcqConfigCall
        (base_test_main e2).trace = true) ∧
    (∀ e2 : BaseTestEnv, e2.initResourceRet = QHYCCD_SUCCESS → e2.scanNum > 0 →
      (btIdLoop e2.getIdRet 0 e2.scanNum.toNat).2 = true → e2.openOk = true →
      e2.liveAvailRet ≠ QHYCCD_ERROR → e2.initCamRet = QHYCCD_SUCCESS →
      (e2.transferBitRet = QHYCCD_SUCCESS → e2.bitsModeRet = QHYCCD_SUCCESS) →
      e2.chipInfoRet = QHYCCD_SUCCESS → e2.resolutionRet = QHYCCD_SUCCESS →
      e2.memLength > 0 → e2.closeRet ≠ QHYCCD_SUCCESS →
      (base_test_main e2).exitCode = some 1 ∧
      afterFirst (isCallOf .close) isAcqConfigCall (base_test_main e2).trace = true) ∧
    (∀ e2 : BaseTestEnv, e2.initResourceRet = QHYCCD_SUCCESS → e2.scanNum > 0 →
      (btIdLoop e2.getIdRet 0 e2.scanNum.toNat).2 = true → e2.openOk = true →
      e2.liveAvailRet ≠ QHYCCD_ERROR → e2.initCamRet = QHYCCD_SUCCESS →
      (e2.transferBitRet = QHYCCD_SUCCESS → e2.bitsModeRet = QHYCCD_SUCCESS) →
      e2.chipInfoRet = QHYCCD_SUCCESS → e2.resolutionRet = QHYCCD_SUCCESS →
      e2.memLength > 0 → e2.closeRet = QHYCCD_SUCCESS → e2.releaseRet ≠ QHYCCD_SUCCESS →
      (base_test_main e2).exitCode = some 1 ∧
      afterFirst (isCallOf .releaseResource) isAcqConfigCall
        (base_test_main e2).trace = true) ∧
    (∀ (e3 : LiveEnv) (f3 : Nat), e3.scanNum ≠ 0 → e3.resolutionRet = QHYCCD_SUCCESS →
      countP (isCallOf .getLiveFrame) (test_live_opencv_main e3 f3).trace = f3) ∧
    (∀ (f : Nat → Int) (fuel i : Nat), (∀ j, f j ≠ QHYCCD_SUCCESS) →
      countP (isCallOf .getId) (btIdLoop f i fuel).1 = fuel) := by
  refine ⟨?_, ?_, ?_, ?_, ?_, ?_, ?_, ?_, ?_, ?_, ?_, ?_, ?_, ?_, ?_, ?_, ?_, ?_,
    ?_, ?_⟩
  · intro e1 h1
    simp [test_base_main, h1, afterFirst, isCallOf, isAcqConfigCall, phase]
  · intro e1 h1 h2
    simp [test_base_main, h1, h2, afterFirst, isCallOf, isAcqConfigCall, phase]
  · intro e3 f3 h1
    simp [test_live_opencv_main, h1, afterFirst, isCallOf, isAcqConfigCall, phase]
  · intro e3 f3 h1 h2
    simp [test_live_opencv_main, h1, h2, afterFirst, isCallOf, isAcqConfigCall, phase]
  · intro e4 f4 h1
    simp [test_single_opencv_main, h1, afterFirst, isCallOf, isAcqConfigCall, phase]
  · intro e4 f4 h1 h2
    simp [test_single_opencv_main, h1, h2, afterFirst, isCallOf, isAcqConfigCall, phase]
  · intro e2 h1
    simp [base_test_main, SDKVersion, btFail, h1, afterFirst, isCallOf,
      isAcqConfigCall, phase]
  · intro e2 h1 h2
    simp [base_test_main, SDKVersion, btFail, h1, h2, afterFirst, isCallOf,
      isAcqConfigCall, phase]
  · intro e2 h1 h2 h3
    have hidC := countP_eq_zero isAcqConfigCall _
      (btIdLoop_all (fun x => !(isAcqConfigCall x)) e2.getIdRet (fun _ => rfl) rfl
        e2.scanNum.toNat 0)
    simp [base_test_main, SDKVersion, btFail, h1, h2, h3, countP, countP_append,
      isAcqConfigCall, phase, hidC]
  · intro e2 h1 h2 h3 h4
    have hid := btIdLoop_no_call .openCam (by decide) e2.getIdRet e2.scanNum.toNat 0
    simp [base_test_main, SDKVersion, btFail, h1, h2, h3, h4, afterFirst, isCallOf,
      isAcqConfigCall, phase, List.append_assoc, afterFirst_append _ _ _ _ hid]
  · intro e2 h1 h2 h3 h4 h5
    have hid := btIdLoop_no_call .isControlAvailable (by decide) e2.getIdRet
      e2.scanNum.toNat 0
    by_cases hfr : e2.fwRet = QHYCCD_SUCCESS <;>
      by_cases h5b : e2.releaseRetNoLive = QHYCCD_SUCCESS <;>
      simp [base_test_main, SDKVersion, btFail, FirmWareVersion, h1, h2, h3, h4, h5,
        hfr, h5b, afterFirst, isCallOf, isAcqConfigCall, phase, List.append_assoc,
        afterFirst_append _ _ _ _ hid]
  · intro e2 h1 h2 h3 h4 h5 h6
    have hid := btIdLoop_no_call .initCamera (by decide) e2.getIdRet
      e2.scanNum.toNat 0
    by_cases hfr : e2.fwRet = QHYCCD_SUCCESS <;>
      simp [base_test_main, SDKVersion, btFail, FirmWareVersion, h1, h2, h3, h4, h5,
        h6, hfr, afterFirst, isCallOf, isAcqConfigCall, phase, List.append_assoc,
        afterFirst_append _ _ _ _ hid]
  · intro e2 h1 h2 h3 h4 h5 h6 h7 h7b
    have hid := btIdLoop_no_call .setBitsMode (by decide) e2.getIdRet
      e2.scanNum.toNat 0
    by_cases hfr : e2.fwRet = QHYCCD_SUCCESS <;>
      simp [base_test_main, SDKVersion, btFail, FirmWareVersion, h1, h2, h3, h4, h5,
        h6, h7, h7b, hfr, afterFirst, isCallOf, isAcqConfigCall, phase,
        List.append_assoc, afterFirst_append _ _ _ _ hid]
  · intro e2 h1 h2 h3 h4 h5 h6 h7c h8
    have hid := btIdLoop_no_call .getChipInfo (by decide) e2.getIdRet
      e2.scanNum.toNat 0
    by_cases htb : e2.transferBitRet = QHYCCD_SUCCESS <;>
      by_cases hfr : e2.fwRet = QHYCCD_SUCCESS <;>
      simp [base_test_main, SDKVersion, btFail, FirmWareVersion, h1, h2, h3, h4, h5,
        h6, h7c, h8, htb, hfr, afterFirst, isCallOf, isAcqConfigCall, phase,
        List.append_assoc, afterFirst_append _ _ _ _ hid]
  · intro e2 h1 h2 h3 h4 h5 h6 h7c h8 h9
    have hid := btIdLoop_no_call .setResolution (by decide) e2.getIdRet
      e2.scanNum.toNat 0
    by_cases htb : e2.transferBitRet = QHYCCD_SUCCESS <;>
      by_cases hfr : e2.fwRet = QHYCCD_SUCCESS <;>
      simp [base_test_main, SDKVersion, btFail, FirmWareVersion, h1, h2, h3, h4, h5,
        h6, h7c, h8, h9, htb, hfr, afterFirst, isCallOf, isAcqConfigCall, phase,
        List.append_assoc, afterFirst_append _ _ _ _ hid]
  · intro e2 h1 h2 h3 h4 h5 h6 h7c h8 h9 h10
    have hid := btIdLoop_no_call .getMemLength (by decide) e2.getIdRet
      e2.scanNum.toNat 0
    by_cases htb : e2.transferBitRet = QHYCCD_SUCCESS <;>
      by_cases hfr : e2.fwRet = QHYCCD_SUCCESS <;>
      simp [base_test_main, SDKVersion, btFail, FirmWareVersion, h1, h2, h3, h4, h5,
        h6, h7c, h8, h9, h10, htb, hfr, afterFirst, isCallOf, isAcqConfigCall,
        phase, List.append_assoc, afterFirst_append _ _ _ _ hid]
  · intro e2 h1 h2 h3 h4 h5 h6 h7c h8 h9 h10 h11
    have hid := btIdLoop_no_call .close (by decide) e2.getIdRet e2.scanNum.toNat 0
    have hcool := btCooler_no_call .close (by decide) (by decide) e2 4 0
    by_cases htb : e2.transferBitRet = QHYCCD_SUCCESS <;>
      by_cases hfr : e2.fwRet = QHYCCD_SUCCESS <;>
      simp [base_test_main, SDKVersion, btFail, FirmWareVersion, h1, h2, h3, h4, h5,
        h6, h7c, h8, h9, h10, h11, htb, hfr, afterFirst, isCallOf, isAcqConfigCall,
        phase, List.append_assoc, afterFirst_append _ _ _ _ hid,
        afterFirst_append _ _ _ _ hcool]
  · intro e2 h1 h2 h3 h4 h5 h6 h7c h8 h9 h10 h11 h12
    have hid := btIdLoop_no_call .releaseResource (by decide) e2.getIdRet
      e2.scanNum.toNat 0
    have hcool := btCooler_no_call .releaseResource (by decide) (by decide) e2 4 0
    by_cases htb : e2.transferBitRet = QHYCCD_SUCCESS <;>
      by_cases hfr : e2.fwRet = QHYCCD_SUCCESS <;>
      simp [base_test_main, SDKVersion, btFail, FirmWareVersion, h1, h2, h3, h4, h5,
        h6, h7c, h8, h9, h10, h11, h12, htb, hfr, afterFirst, isCallOf,
        isAcqConfigCall, phase, List.append_assoc, afterFirst_append _ _ _ _ hid,
        afterFirst_append _ _ _ _ hcool]
  · intro e3 f3 h1 h2
    have hl := liveLoop_fetchCount e3.liveFrameRet e3.fpsTick f3 0
    simp [test_live_opencv_main, h1, h2, countP, countP_append, isCallOf, hl]
  · intro f fuel i hf
    exact btIdLoop_fail_count f hf fuel i

/-- Witness for C7 (amended): the failing-resolution `test_base` run and
the failing-`InitQHYCCD` `base_test` run abort with status 1 making no
acquisition or configuration SDK call after the failed call, and the
all-success live run performs one fetch per pass (three with fuel 3). -/
theorem C7_witness :
    ((test_base_main { tbEnvOk with resolutionRet := QHYCCD_ERROR }).exitCode = some 1 ∧
      afterFirst (isCallOf .setResolution) isAcqConfigCall
        (test_base_main { tbEnvOk with resolutionRet := QHYCCD_ERROR }).trace = true) ∧
    ((base_test_main { btEnvOk with initCamRet := QHYCCD_ERROR }).exitCode = some 1 ∧
      afterFirst (isCallOf .initCamera) isAcqConfigCall
        (base_test_main { btEnvOk with initCamRet := QHYCCD_ERROR }).trace = true) ∧
    countP (isCallOf .getLiveFrame) (test_live_opencv_main liveEnvOk 3).trace = 3 :=
  ⟨C7_failed_check_behaviour.2.1 { tbEnvOk with resolutionRet := QHYCCD_ERROR }
      (by decide) (by decide),
   C7_failed_check_behaviour.2.2.2.2.2.2.2.2.2.2.2.1
      { btEnvOk with initCamRet := QHYCCD_ERROR }
      (by decide) (by decide) (by decide) (by decide) (by decide) (by decide),
   C7_failed_check_behaviour.2.2.2.2.2.2.2.2.2.2.2.2.2.2.2.2.2.2.1 liveEnvOk 3
      (by decide) (by decide)⟩
